import Mathlib

/-!
# gowiki: a shallow embedding of `wiki.go`

The program is a small wiki server: three HTTP handlers (`viewHandler`,
`editHandler`, `saveHandler`) validate the request path with the regular
expression `validPath`, load or save a `Page` as the file `<title>.txt`, and
answer by rendering a template, redirecting, or reporting an error.

The Go code is stateful (it writes to the `http.ResponseWriter` and to the file
system), so every function below passes a `World` explicitly.  The library
functions the program calls (`regexp`, `io/ioutil`, `net/http`,
`html/template`) are modelled first, the functions of `wiki.go` after them,
with the names and the control flow of the source.

## Modelling choices

* A Go `string` is a Lean `String`, a `[]byte` a list of bytes; `[]byte(s)` is
  the UTF-8 encoding `bytesOf s`.
* `validPath` is the abstract syntax of the pattern in the source, run by a
  backtracking matcher with capture groups (`Regex.run`, `Regex.find`).
* The file store is the working directory seen as a finite map from names to
  regular files or directories, with a flag for a store that refuses writes and
  the number of bytes still free.  Opening fails on a name longer than 255
  bytes; reading fails on a missing name or a directory; writing fails on a
  directory, when the store refuses writes, or when the data does not fit, in
  which case the file is left truncated to what did fit.  Permission bits and
  links are outside the model.
* The response writer follows `net/http`: the status line and the headers are
  fixed by the first `WriteHeader` or `Write`; later `WriteHeader` calls change
  nothing.
* The template files are not part of the sources: the parsed `templates` are a
  parameter that says, for a template name and a page, which writes the
  execution makes and which error it returns.
* `World.trace` records the library calls in order, so that "no file is read",
  "nothing is rendered" and the like can be stated.
* `main` only registers the handlers and starts the server; it is not modelled.
  Each handler overwrites its parameter `title` with the result of `getTitle`.
-/

set_option linter.unusedVariables false
set_option maxRecDepth 100000

namespace GoWiki

/-! ## Strings and byte slices -/

/-- A Go `[]byte`. -/
abbrev Bytes := List UInt8

/-- UTF-8 encoding of one code point. -/
def utf8EncodeRune (c : Char) : Bytes :=
  let n := c.toNat
  if n < 0x80 then [UInt8.ofNat n]
  else if n < 0x800 then [UInt8.ofNat (0xC0 + n / 64), UInt8.ofNat (0x80 + n % 64)]
  else if n < 0x10000 then
    [UInt8.ofNat (0xE0 + n / 4096), UInt8.ofNat (0x80 + n / 64 % 64), UInt8.ofNat (0x80 + n % 64)]
  else
    [UInt8.ofNat (0xF0 + n / 262144), UInt8.ofNat (0x80 + n / 4096 % 64),
     UInt8.ofNat (0x80 + n / 64 % 64), UInt8.ofNat (0x80 + n % 64)]

/-- The conversion `[]byte(s)`: the bytes of the string `s`.  Go strings are
modelled by Lean strings, whose bytes are their UTF-8 encoding. -/
def bytesOf (s : String) : Bytes := s.toList.flatMap utf8EncodeRune

/-! ## `regexp`: a backtracking matcher with capture groups -/

/-- Abstract syntax of the regular expressions the program uses. -/
inductive Regex where
  /-- A literal character. -/
  | lit (c : Char)
  /-- A character class given by inclusive ranges, as in `[a-zA-Z0-9]`. -/
  | cls (ranges : List (Char × Char))
  /-- Concatenation. -/
  | seq (a b : Regex)
  /-- Alternation `a|b`, preferring `a`. -/
  | alt (a b : Regex)
  /-- Greedy repetition `a+`. -/
  | plus (a : Regex)
  /-- The capturing group number `idx`. -/
  | group (idx : Nat) (a : Regex)
  /-- The assertion `^`: beginning of the text. -/
  | bol
  /-- The assertion `$`: end of the text. -/
  | eol

/-- A matcher thread: the position reached, the text still to read, and the
capture groups closed so far (the most recent first). -/
structure MState where
  pos : Nat
  rest : List Char
  caps : List (Nat × List Char)
  deriving DecidableEq, Repr

/-- Consume one character satisfying `ok`. -/
def charStep (ok : Char → Bool) (s : MState) : List MState :=
  match s.rest with
  | [] => []
  | c :: cs => if ok c then [⟨s.pos + 1, cs, s.caps⟩] else []

/-- Membership of a character in a class given by inclusive ranges. -/
def inRanges (ranges : List (Char × Char)) (c : Char) : Bool :=
  ranges.any fun r => decide (r.1 ≤ c) && decide (c ≤ r.2)

/-- One or more iterations of the matcher `f`, greedy: a further iteration is
tried before stopping.  The first argument bounds the number of iterations. -/
def plusIter (f : MState → List MState) : Nat → MState → List MState
  | 0, _ => []
  | n + 1, s => (f s).flatMap fun s1 => plusIter f n s1 ++ [s1]

/-- All the ways the expression matches at the given thread, in the order of
preference of a backtracking engine (Go's leftmost-first semantics).  `a+` is
iterated at most once more than there are characters left, which is every
iteration an expression that consumes input can make. -/
def Regex.run : Regex → MState → List MState
  | .lit c, s => charStep (fun x => x == c) s
  | .cls ranges, s => charStep (inRanges ranges) s
  | .seq a b, s => (a.run s).flatMap b.run
  | .alt a b, s => a.run s ++ b.run s
  | .plus a, s => plusIter a.run (s.rest.length + 1) s
  | .group idx a, s =>
      (a.run s).map fun s1 =>
        { s1 with caps := (idx, s.rest.take (s.rest.length - s1.rest.length)) :: s1.caps }
  | .bol, s => if s.pos = 0 then [s] else []
  | .eol, s => if s.rest = [] then [s] else []

/-- The number of capture groups (`NumSubexp`). -/
def Regex.numSubexp : Regex → Nat
  | .seq a b => a.numSubexp + b.numSubexp
  | .alt a b => a.numSubexp + b.numSubexp
  | .plus a => a.numSubexp
  | .group _ a => a.numSubexp + 1
  | _ => 0

/-- The leftmost match: try every start position in turn and keep the preferred
thread of the first position that has one.  Returns the text from the start of
the match on, and the final thread. -/
def Regex.find (re : Regex) : Nat → List Char → Option (List Char × MState)
  | pos, [] => ((re.run ⟨pos, [], []⟩).head?).map fun m => ([], m)
  | pos, c :: cs =>
      match (re.run ⟨pos, c :: cs, []⟩).head? with
      | some m => some (c :: cs, m)
      | none => re.find (pos + 1) cs

/-- Model of `(*Regexp).FindStringSubmatch`: `none` (Go's `nil`) when there is
no match, otherwise the text of the leftmost match followed by the text of each
capture group (the empty string for a group that took no part). -/
def Regex.FindStringSubmatch (re : Regex) (s : String) : Option (List String) :=
  (re.find 0 s.toList).map fun (from_, m) =>
    String.mk (from_.take (from_.length - m.rest.length)) ::
      (List.range re.numSubexp).map fun i => String.mk ((m.caps.lookup (i + 1)).getD [])

/-! ## `io/ioutil`: the file store -/

/-- What a name of the working directory stands for. -/
inductive Node where
  /-- A regular file with its content. -/
  | file (data : Bytes)
  /-- A directory: it can be neither read nor written as a file. -/
  | dir
  deriving DecidableEq, Repr

/-- The working directory of the server: its entries, whether it refuses writes
(a read-only file system), and the number of bytes still free.  The regular
files of the store are those the server may read and write, as `save` creates
them (mode `0600`); mode bits are not kept. -/
structure FileSystem where
  entries : List (String × Node)
  readOnly : Bool
  free : Nat
  deriving DecidableEq, Repr

/-- A file name longer than 255 bytes cannot be opened (`NAME_MAX`). -/
def nameTooLong (name : String) : Bool :=
  decide (255 < (bytesOf name).length)

/-- The entry of a name, if any; no entry has a name that cannot be opened. -/
def FileSystem.get (fs : FileSystem) (name : String) : Option Node :=
  if nameTooLong name then none else fs.entries.lookup name

/-- The size of the regular file an entry stands for. -/
def sizeOfEntry : Option Node → Nat
  | some (.file data) => data.length
  | _ => 0

/-- A Go `error` value is modelled by its message; `none` is `nil`. -/
abbrev error := Option String

/-! ## `net/http`: requests and the response writer -/

/-- The part of `url.URL` the program reads. -/
structure URL where
  Path : String
  deriving DecidableEq, Repr

/-- The part of `http.Request` the program and the library functions it calls
read: the method, the URL, and the parsed form `r.Form` (the decoded values of
the URL query and of the request body, under their keys). -/
structure Request where
  Method : String
  URL : URL
  Form : List (String × List String)
  deriving DecidableEq, Repr

/-- Model of `(*Request).FormValue`: the first value of the key, or the empty
string when the key is missing. -/
def Request.FormValue (r : Request) (key : String) : String :=
  match r.Form.lookup key with
  | some (v :: _) => v
  | _ => ""

/-- An `http.ResponseWriter`: the header map, the status line and header
snapshot once they have been written, and the body written so far. -/
structure ResponseWriter where
  header : List (String × String)
  sent : Option (Nat × List (String × String))
  body : Bytes
  deriving DecidableEq, Repr

/-- The writer a handler is called with: nothing set, nothing written. -/
def ResponseWriter.fresh : ResponseWriter := ⟨[], none, []⟩

/-- Model of `Header.Set`. -/
def ResponseWriter.setHeader (w : ResponseWriter) (k v : String) : ResponseWriter :=
  { w with header := (k, v) :: w.header.filter fun e => e.1 != k }

/-- Model of `WriteHeader`: the first call fixes the status code and the
headers; a later call changes nothing. -/
def ResponseWriter.WriteHeader (w : ResponseWriter) (code : Nat) : ResponseWriter :=
  match w.sent with
  | some _ => w
  | none => { w with sent := some (code, w.header) }

/-- Model of `Write`: writes the header with status 200 if none was written
yet, then appends the data to the body. -/
def ResponseWriter.Write (w : ResponseWriter) (data : Bytes) : ResponseWriter :=
  let w1 := w.WriteHeader 200
  { w1 with body := w1.body ++ data }

/-- The status code of the response, once written. -/
def ResponseWriter.status (w : ResponseWriter) : Option Nat :=
  w.sent.map fun s => s.1

/-- The `Location` header of the response, once written. -/
def ResponseWriter.location (w : ResponseWriter) : Option String :=
  w.sent.bind fun s => s.2.lookup "Location"

/-- The page to show: title and body. -/
structure Page where
  Title : String
  Body : Bytes
  deriving DecidableEq, Repr

/-- The calls a handler makes that touch the file system or the response, in
the order they are made. -/
inductive Call where
  | ReadFile (filename : String)
  | WriteFile (filename : String) (data : Bytes) (perm : Nat)
  | ExecuteTemplate (name : String) (p : Page)
  | Error (msg : String) (code : Nat)
  | NotFound
  | Redirect (url : String) (code : Nat)
  deriving DecidableEq, Repr

/-- The state a handler runs in: the file store, the response writer, and the
calls made so far. -/
structure World where
  fs : FileSystem
  w : ResponseWriter
  trace : List Call
  deriving DecidableEq, Repr

/-- The state at the start of a request: a fresh writer and no call made. -/
def World.init (fs : FileSystem) : World := ⟨fs, ResponseWriter.fresh, []⟩

/-- Record a call. -/
def World.log (σ : World) (c : Call) : World := { σ with trace := σ.trace ++ [c] }

namespace ioutil

/-- Model of `ioutil.ReadFile`: the content of a regular file; an error for a
name too long, a missing name or a directory. -/
def ReadFile (filename : String) (σ : World) : Except String Bytes × World :=
  let σ1 := σ.log (.ReadFile filename)
  if nameTooLong filename then
    (.error ("open " ++ filename ++ ": file name too long"), σ1)
  else
    match σ.fs.get filename with
    | some (.file data) => (.ok data, σ1)
    | some .dir => (.error ("read " ++ filename ++ ": is a directory"), σ1)
    | none => (.error ("open " ++ filename ++ ": no such file or directory"), σ1)

/-- Model of `ioutil.WriteFile`: opens the file for writing, creating it or
truncating it, then writes the data.  The open fails, and nothing changes, when
the name is too long, the store refuses writes or the name is a directory.  The
write fails when the data does not fit in the free space (that of the store
plus that of the truncated file); the file then keeps what did fit. -/
def WriteFile (filename : String) (data : Bytes) (perm : Nat) (σ : World) : error × World :=
  let σ1 := σ.log (.WriteFile filename data perm)
  if nameTooLong filename then
    (some ("open " ++ filename ++ ": file name too long"), σ1)
  else if σ.fs.readOnly then
    (some ("open " ++ filename ++ ": read-only file system"), σ1)
  else
    match σ.fs.get filename with
    | some .dir => (some ("open " ++ filename ++ ": is a directory"), σ1)
    | old =>
      let avail := σ.fs.free + sizeOfEntry old
      let others := σ.fs.entries.filter fun e => e.1 != filename
      if data.length ≤ avail then
        (none, { σ1 with fs := { σ.fs with
          entries := (filename, .file data) :: others, free := avail - data.length } })
      else
        (some ("write " ++ filename ++ ": no space left on device"),
          { σ1 with fs := { σ.fs with
            entries := (filename, .file (data.take avail)) :: others, free := 0 } })

end ioutil

namespace http

/-- The constant `http.StatusFound`. -/
def StatusFound : Nat := 302
/-- The constant `http.StatusNotFound`. -/
def StatusNotFound : Nat := 404
/-- The constant `http.StatusInternalServerError`. -/
def StatusInternalServerError : Nat := 500

/-- The entries of `http.StatusText` for the codes the program uses. -/
def StatusText (code : Nat) : String :=
  if code = 200 then "OK"
  else if code = 302 then "Found"
  else if code = 404 then "Not Found"
  else if code = 500 then "Internal Server Error"
  else ""

/-- Escaping of the five HTML special characters, as `net/http` does it. -/
def htmlEscape (s : String) : String :=
  String.mk (s.toList.flatMap fun c =>
    if c = '&' then "&amp;".toList
    else if c = '<' then "&lt;".toList
    else if c = '>' then "&gt;".toList
    else if c = '"' then "&#34;".toList
    else if c = Char.ofNat 39 then "&#39;".toList
    else [c])

/-- The effect of `http.Error` on the writer: two headers, the status code,
then the message as a line of the body. -/
def errorReply (w : ResponseWriter) (msg : String) (code : Nat) : ResponseWriter :=
  (((w.setHeader "Content-Type" "text/plain; charset=utf-8").setHeader
    "X-Content-Type-Options" "nosniff").WriteHeader code).Write (bytesOf (msg ++ "\n"))

/-- Model of `http.Error`. -/
def Error (msg : String) (code : Nat) (σ : World) : World :=
  { σ.log (.Error msg code) with w := errorReply σ.w msg code }

/-- Model of `http.NotFound`: the 404 error reply. -/
def NotFound (r : Request) (σ : World) : World :=
  { σ.log .NotFound with w := errorReply σ.w "404 page not found" StatusNotFound }

/-- Model of `http.Redirect` for a rooted, clean URL without query (the only
kind the handlers pass): the `Location` header, the status code and, for a GET
request without content type, a short HTML note. -/
def Redirect (r : Request) (url : String) (code : Nat) (σ : World) : World :=
  let hadCT := (σ.w.header.lookup "Content-Type").isSome
  let w1 := σ.w.setHeader "Location" url
  let w2 :=
    if !hadCT && (r.Method == "GET" || r.Method == "HEAD") then
      w1.setHeader "Content-Type" "text/html; charset=utf-8"
    else w1
  let w3 := w2.WriteHeader code
  let w4 :=
    if !hadCT && r.Method == "GET" then
      w3.Write (bytesOf ("<a href=\"" ++ htmlEscape url ++ "\">" ++ StatusText code ++ "</a>.\n" ++ "\n"))
    else w3
  { σ.log (.Redirect url code) with w := w4 }

end http

/-! ## `html/template` -/

/-- What executing a template does: the successive writes it makes on the
response, and the error it returns (`none` for success).  An execution that
fails may already have written part of its output. -/
structure ExecResult where
  writes : List Bytes
  err : error

/-- The parsed templates (the global `templates`): the files `edit.html` and
`view.html` are not part of the sources, so the set is a parameter. -/
abbrev Templates := String → Page → ExecResult

/-- Model of `(*Template).ExecuteTemplate`. -/
def ExecuteTemplate (templates : Templates) (name : String) (p : Page) (σ : World) :
    error × World :=
  let res := templates name p
  (res.err, { σ.log (.ExecuteTemplate name p) with w := res.writes.foldl ResponseWriter.Write σ.w })

/-! ## `wiki.go` -/

/-- The method `(p *Page) save()`. -/
def Page.save (p : Page) (σ : World) : error × World :=
  let filename := p.Title ++ ".txt"
  ioutil.WriteFile filename p.Body 0o600 σ

/-- The function `loadPage`. -/
def loadPage (title : String) (σ : World) : Except String Page × World :=
  let filename := title ++ ".txt"
  match ioutil.ReadFile filename σ with
  | (.error err, σ1) => (.error err, σ1)
  | (.ok body, σ1) => (.ok { Title := title, Body := body }, σ1)

/-- The function `renderTemplate`. -/
def renderTemplate (templates : Templates) (tmpl : String) (p : Page) (σ : World) : World :=
  match ExecuteTemplate templates (tmpl ++ ".html") p σ with
  | (some err, σ1) => http.Error err http.StatusInternalServerError σ1
  | (none, σ1) => σ1

/-- The class `[a-zA-Z0-9]`. -/
def alnumClass : Regex := .cls [('a', 'z'), ('A', 'Z'), ('0', '9')]

/-- The variable `validPath`: `^/(edit|save|view)/([a-zA-Z0-9]+)$`. -/
def validPath : Regex :=
  .seq .bol
    (.seq (.lit '/')
      (.seq (.group 1
              (.alt (.seq (.lit 'e') (.seq (.lit 'd') (.seq (.lit 'i') (.lit 't'))))
                (.alt (.seq (.lit 's') (.seq (.lit 'a') (.seq (.lit 'v') (.lit 'e'))))
                      (.seq (.lit 'v') (.seq (.lit 'i') (.seq (.lit 'e') (.lit 'w')))))))
        (.seq (.lit '/')
          (.seq (.group 2 (.plus alnumClass)) .eol))))

/-- The titles the specification allows: non-empty, ASCII letters and digits
only (`[a-zA-Z0-9]+`). -/
def validTitle (t : String) : Bool :=
  !t.toList.isEmpty && t.toList.all Char.isAlphanum

/-- The function `getTitle`. -/
def getTitle (r : Request) (σ : World) : (String × error) × World :=
  match validPath.FindStringSubmatch r.URL.Path with
  | none => (("", some "Invalid Page Title"), http.NotFound r σ)
  | some m => ((m.getD 2 "", none), σ) -- The title is the second subexpression.

/-- The function `viewHandler`. -/
def viewHandler (templates : Templates) (r : Request) (title : String) (σ : World) : World :=
  match getTitle r σ with
  | ((_, some _), σ1) => σ1
  | ((title, none), σ1) =>
    match loadPage title σ1 with
    | (.error _, σ2) => http.Redirect r ("/edit/" ++ title) http.StatusFound σ2
    | (.ok p, σ2) => renderTemplate templates "view" p σ2

/-- The function `editHandler`. -/
def editHandler (templates : Templates) (r : Request) (title : String) (σ : World) : World :=
  match getTitle r σ with
  | ((_, some _), σ1) => σ1
  | ((title, none), σ1) =>
    let (res, σ2) := loadPage title σ1
    let p : Page :=
      match res with
      | .error _ => { Title := title, Body := [] }
      | .ok p => p
    renderTemplate templates "edit" p σ2

/-- The function `saveHandler`. -/
def saveHandler (r : Request) (title : String) (σ : World) : World :=
  match getTitle r σ with
  | ((_, some _), σ1) => σ1
  | ((title, none), σ1) =>
    let body := r.FormValue "body"
    let p : Page := { Title := title, Body := bytesOf body }
    match p.save σ1 with
    | (some err, σ2) => http.Error err http.StatusInternalServerError σ2
    | (none, σ2) => http.Redirect r ("/view/" ++ title) http.StatusFound σ2

/-- The file name a call passes to the file store, if it is a file operation. -/
def Call.fileName : Call → Option String
  | .ReadFile filename => some filename
  | .WriteFile filename _ _ => some filename
  | _ => none

/-- The file names passed to the file store in a trace, in order. -/
def filesTouched (trace : List Call) : List String := trace.filterMap Call.fileName

/-! ## Example data -/

/-- Example templates: each writes the template name, the title and the body,
and succeeds. -/
def demoTemplates : Templates := fun name p => ⟨[bytesOf name, bytesOf p.Title, p.Body], none⟩

/-- Example templates whose execution writes the start of a page and then
fails, as when a later write to the connection fails. -/
def brokenTemplates : Templates := fun _ p =>
  ⟨[bytesOf "<h1>", bytesOf p.Title], some "write tcp: broken pipe"⟩

/-- An empty, writable store with room for a megabyte. -/
def emptyStore : FileSystem := ⟨[], false, 1000000⟩

/-- An empty store on a read-only file system. -/
def readOnlyStore : FileSystem := ⟨[], true, 1000000⟩

/-- An empty, writable store with room for three bytes only. -/
def fullStore : FileSystem := ⟨[], false, 3⟩

/-- A valid title of 252 letters: with `.txt` the file name has 256 bytes. -/
def longTitle : String := String.mk (List.replicate 252 'a')

/-- A writable store holding the page `Test` with body `old`. -/
def oldTestStore : FileSystem := ⟨[("Test.txt", .file (bytesOf "old"))], false, 1000000⟩

/-- A writable store holding the page `B` with body `y`. -/
def otherPageStore : FileSystem := ⟨[("B.txt", .file (bytesOf "y"))], false, 1000000⟩

/-! ## Lemmas on the matcher -/

theorem inRanges_alnum (c : Char) :
    inRanges [('a', 'z'), ('A', 'Z'), ('0', '9')] c = c.isAlphanum := by
  simp only [inRanges, List.any_cons, List.any_nil, Bool.or_false, Char.isAlphanum, Char.isAlpha,
    Char.isUpper, Char.isLower, Char.isDigit, Char.le_def]
  rw [Bool.or_comm (decide (c.val ≥ 65) && decide (c.val ≤ 90)), Bool.or_assoc]
  have ha : ('a' : Char).val = 97 := rfl
  have hz : ('z' : Char).val = 122 := rfl
  have hA : ('A' : Char).val = 65 := rfl
  have hZ : ('Z' : Char).val = 90 := rfl
  have h0 : ('0' : Char).val = 48 := rfl
  have h9 : ('9' : Char).val = 57 := rfl
  simp only [ha, hz, hA, hZ, h0, h9, ge_iff_le]

theorem mem_charStep (ok : Char → Bool) (s m : MState) :
    m ∈ charStep ok s ↔ ∃ c, ok c = true ∧ s.rest = c :: m.rest ∧ m.pos = s.pos + 1 ∧ m.caps = s.caps := by
  obtain ⟨p, rest, caps⟩ := s
  obtain ⟨p1, rest1, caps1⟩ := m
  cases rest with
  | nil => simp [charStep]
  | cons c cs =>
    by_cases h : ok c = true
    · simp [charStep, h]
      constructor
      · rintro ⟨rfl, rfl, rfl⟩
        exact ⟨c, h, ⟨rfl, rfl⟩, rfl, rfl⟩
      · rintro ⟨c1, h1, ⟨rfl, rfl⟩, rfl, rfl⟩
        exact ⟨rfl, rfl, rfl⟩
    · simp [charStep, h]
      rintro c1 h1 rfl
      exact absurd h1 h

theorem mem_run_lit (c : Char) (s m : MState) :
    m ∈ (Regex.lit c).run s ↔ s.rest = c :: m.rest ∧ m.pos = s.pos + 1 ∧ m.caps = s.caps := by
  simp [Regex.run, mem_charStep]

theorem mem_run_seq (a b : Regex) (s m : MState) :
    m ∈ (Regex.seq a b).run s ↔ ∃ s1 ∈ a.run s, m ∈ b.run s1 := by
  simp [Regex.run, List.mem_flatMap]

theorem mem_run_alt (a b : Regex) (s m : MState) :
    m ∈ (Regex.alt a b).run s ↔ m ∈ a.run s ∨ m ∈ b.run s := by
  simp [Regex.run]

theorem mem_run_group (idx : Nat) (a : Regex) (s m : MState) :
    m ∈ (Regex.group idx a).run s ↔
      ∃ s1 ∈ a.run s, m = ⟨s1.pos, s1.rest,
        (idx, s.rest.take (s.rest.length - s1.rest.length)) :: s1.caps⟩ := by
  simp only [Regex.run, List.mem_map]
  constructor
  · rintro ⟨s1, h, rfl⟩; exact ⟨s1, h, rfl⟩
  · rintro ⟨s1, h, rfl⟩; exact ⟨s1, h, rfl⟩

theorem mem_run_word4 (a b c d : Char) (s m : MState) :
    m ∈ (Regex.seq (.lit a) (.seq (.lit b) (.seq (.lit c) (.lit d)))).run s ↔
      s.rest = a :: b :: c :: d :: m.rest ∧ m.pos = s.pos + 4 ∧ m.caps = s.caps := by
  simp only [mem_run_seq, mem_run_lit]
  constructor
  · rintro ⟨s1, ⟨h1, h2, h3⟩, s2, ⟨h4, h5, h6⟩, s3, ⟨h7, h8, h9⟩, h10, h11, h12⟩
    refine ⟨?_, ?_, ?_⟩
    · rw [h1, h4, h7, h10]
    · omega
    · rw [h12, h9, h6, h3]
  · rintro ⟨h1, h2, h3⟩
    exact ⟨⟨s.pos + 1, b :: c :: d :: m.rest, s.caps⟩, ⟨h1, rfl, rfl⟩,
      ⟨s.pos + 2, c :: d :: m.rest, s.caps⟩, ⟨rfl, rfl, rfl⟩,
      ⟨s.pos + 3, d :: m.rest, s.caps⟩, ⟨rfl, rfl, rfl⟩, rfl, by simp [h2], h3⟩

theorem take_verb (v r : List Char) (h : v.length = 4) :
    List.take ((v ++ r).length - r.length) (v ++ r) = v := by
  have : (v ++ r).length - r.length = v.length := by simp
  rw [this, List.take_left]

theorem mem_run_verbs (s m : MState) :
    m ∈ (Regex.group 1
          (.alt (.seq (.lit 'e') (.seq (.lit 'd') (.seq (.lit 'i') (.lit 't'))))
            (.alt (.seq (.lit 's') (.seq (.lit 'a') (.seq (.lit 'v') (.lit 'e'))))
                  (.seq (.lit 'v') (.seq (.lit 'i') (.seq (.lit 'e') (.lit 'w'))))))).run s ↔
      ∃ v, v ∈ [['e', 'd', 'i', 't'], ['s', 'a', 'v', 'e'], ['v', 'i', 'e', 'w']] ∧
        s.rest = v ++ m.rest ∧ m.pos = s.pos + 4 ∧ m.caps = (1, v) :: s.caps := by
  simp only [mem_run_group, mem_run_alt, mem_run_word4]
  constructor
  · rintro ⟨s1, h1, rfl⟩
    rcases h1 with ⟨h1, h2, h3⟩ | ⟨h1, h2, h3⟩ | ⟨h1, h2, h3⟩
    · refine ⟨['e', 'd', 'i', 't'], by simp, by simp [h1], h2, ?_⟩
      have := take_verb ['e', 'd', 'i', 't'] s1.rest rfl
      simp only [h1, h3]
      simpa using this
    · refine ⟨['s', 'a', 'v', 'e'], by simp, by simp [h1], h2, ?_⟩
      have := take_verb ['s', 'a', 'v', 'e'] s1.rest rfl
      simp only [h1, h3]
      simpa using this
    · refine ⟨['v', 'i', 'e', 'w'], by simp, by simp [h1], h2, ?_⟩
      have := take_verb ['v', 'i', 'e', 'w'] s1.rest rfl
      simp only [h1, h3]
      simpa using this
  · rintro ⟨v, hv, h1, h2, h3⟩
    have hlen : v.length = 4 := by
      simp only [List.mem_cons, List.mem_singleton, List.not_mem_nil, or_false] at hv
      rcases hv with rfl | rfl | rfl <;> rfl
    refine ⟨⟨m.pos, m.rest, s.caps⟩, ?_, ?_⟩
    · simp only [List.mem_cons, List.mem_singleton, List.not_mem_nil, or_false] at hv
      rcases hv with rfl | rfl | rfl
      · exact Or.inl ⟨h1, h2, rfl⟩
      · exact Or.inr (Or.inl ⟨h1, h2, rfl⟩)
      · exact Or.inr (Or.inr ⟨h1, h2, rfl⟩)
    · obtain ⟨p1, r1, c1⟩ := m
      simp only at h1 h2 h3 ⊢
      rw [h1, take_verb v r1 hlen, h3]

theorem run_alnumClass (s : MState) : alnumClass.run s = charStep Char.isAlphanum s := by
  have : inRanges [('a', 'z'), ('A', 'Z'), ('0', '9')] = Char.isAlphanum := funext inRanges_alnum
  simp [alnumClass, Regex.run, this]

theorem plusIter_alnum_eol {β : Type} (G : MState → β) :
    ∀ (n : Nat) (s : MState), s.rest.length < n →
      (plusIter alnumClass.run n s).flatMap (fun m => if m.rest = [] then [G m] else []) =
        if s.rest ≠ [] ∧ s.rest.all Char.isAlphanum = true then
          [G ⟨s.pos + s.rest.length, [], s.caps⟩]
        else [] := by
  intro n
  induction n with
  | zero => intro s h; omega
  | succ n ih =>
    intro s h
    obtain ⟨p, rest, caps⟩ := s
    cases rest with
    | nil => simp [plusIter, run_alnumClass, charStep]
    | cons x xs =>
      simp only [plusIter, run_alnumClass, charStep]
      by_cases hx : x.isAlphanum = true
      · have hlen : (MState.mk (p + 1) xs caps).rest.length < n := by
          simp only [List.length_cons] at h ⊢; omega
        have := ih ⟨p + 1, xs, caps⟩ hlen
        simp only [hx, if_true, List.flatMap_cons, List.flatMap_nil, List.append_nil,
          List.flatMap_append, this]
        cases xs with
        | nil => simp [hx]
        | cons y ys =>
          simp [hx, Nat.add_assoc, Nat.add_comm 1]
      · simp [hx]

theorem run_tail (s : MState) :
    (Regex.seq (.group 2 (.plus alnumClass)) .eol).run s =
      if s.rest ≠ [] ∧ s.rest.all Char.isAlphanum = true then
        [⟨s.pos + s.rest.length, [], (2, s.rest) :: s.caps⟩]
      else [] := by
  have h := plusIter_alnum_eol
    (fun s1 : MState => (⟨s1.pos, s1.rest,
      (2, s.rest.take (s.rest.length - s1.rest.length)) :: s1.caps⟩ : MState))
    (s.rest.length + 1) s (Nat.lt_succ_self _)
  simp only [List.length_nil, Nat.sub_zero, List.take_length] at h
  rw [← h]
  simp only [Regex.run, List.flatMap_map]

theorem mem_run_validPath (p : Nat) (cs : List Char) (m : MState) :
    m ∈ validPath.run ⟨p, cs, []⟩ ↔
      p = 0 ∧ ∃ v t, v ∈ [['e', 'd', 'i', 't'], ['s', 'a', 'v', 'e'], ['v', 'i', 'e', 'w']] ∧
        t ≠ [] ∧ t.all Char.isAlphanum = true ∧ cs = '/' :: (v ++ '/' :: t) ∧
        m = ⟨6 + t.length, [], [(2, t), (1, v)]⟩ := by
  unfold validPath
  rw [mem_run_seq]
  constructor
  · rintro ⟨s1, h1, h2⟩
    rw [Regex.run] at h1
    split_ifs at h1 with hp
    · simp only [List.mem_singleton] at h1
      subst h1
      simp only at hp
      rw [mem_run_seq] at h2
      obtain ⟨s2, h2, h3⟩ := h2
      rw [mem_run_lit] at h2
      rw [mem_run_seq] at h3
      obtain ⟨s3, h3, h4⟩ := h3
      rw [mem_run_verbs] at h3
      obtain ⟨v, hv, h3a, h3b, h3c⟩ := h3
      rw [mem_run_seq] at h4
      obtain ⟨s4, h4, h5⟩ := h4
      rw [mem_run_lit] at h4
      rw [run_tail] at h5
      split_ifs at h5 with ht
      · simp only [List.mem_singleton] at h5
        refine ⟨hp, v, s4.rest, hv, ht.1, ht.2, ?_, ?_⟩
        · have h2a := h2.1
          simp only at h2a
          rw [h2a, h3a, h4.1]
        · have hlen : v.length = 4 := by
            simp only [List.mem_cons, List.mem_singleton, List.not_mem_nil, or_false] at hv
            rcases hv with rfl | rfl | rfl <;> rfl
          obtain ⟨-, h2b, h2c⟩ := h2
          simp only at h2b h2c
          rw [h5, h4.2.2, h4.2.1, h3c, h3b, h2c, h2b, hp]
      · simp at h5
    · simp at h1
  · rintro ⟨rfl, v, t, hv, ht, hal, rfl, rfl⟩
    refine ⟨⟨0, '/' :: (v ++ '/' :: t), []⟩, by simp [Regex.run], ?_⟩
    rw [mem_run_seq]
    refine ⟨⟨1, v ++ '/' :: t, []⟩, by simp [mem_run_lit], ?_⟩
    rw [mem_run_seq]
    refine ⟨⟨5, '/' :: t, [(1, v)]⟩, by rw [mem_run_verbs]; exact ⟨v, hv, rfl, rfl, rfl⟩, ?_⟩
    rw [mem_run_seq]
    refine ⟨⟨6, t, [(1, v)]⟩, by simp [mem_run_lit], ?_⟩
    rw [run_tail]
    simp [ht, hal]

theorem verb_length (v : List Char)
    (hv : v ∈ [['e', 'd', 'i', 't'], ['s', 'a', 'v', 'e'], ['v', 'i', 'e', 'w']]) :
    v.length = 4 := by
  simp only [List.mem_cons, List.mem_singleton, List.not_mem_nil, or_false] at hv
  rcases hv with rfl | rfl | rfl <;> rfl

theorem find_validPath_pos : ∀ (cs : List Char) (p : Nat), 0 < p → validPath.find p cs = none := by
  intro cs
  induction cs with
  | nil =>
    intro p hp
    have : validPath.run ⟨p, [], []⟩ = [] := by
      apply List.eq_nil_iff_forall_not_mem.mpr
      intro m hm
      rw [mem_run_validPath] at hm
      omega
    simp [Regex.find, this]
  | cons c cs ih =>
    intro p hp
    have : validPath.run ⟨p, c :: cs, []⟩ = [] := by
      apply List.eq_nil_iff_forall_not_mem.mpr
      intro m hm
      rw [mem_run_validPath] at hm
      omega
    simp [Regex.find, this, ih (p + 1) (Nat.succ_pos p)]

theorem find_validPath_zero (cs : List Char) :
    validPath.find 0 cs = ((validPath.run ⟨0, cs, []⟩).head?).map fun m => (cs, m) := by
  cases cs with
  | nil => rfl
  | cons c cs =>
    rw [Regex.find]
    cases h : (validPath.run ⟨0, c :: cs, []⟩).head? with
    | none => simp [find_validPath_pos cs 1 Nat.one_pos]
    | some m => simp

theorem head_run_validPath (cs : List Char) (st : MState) :
    (validPath.run ⟨0, cs, []⟩).head? = some st ↔
      ∃ v t, v ∈ [['e', 'd', 'i', 't'], ['s', 'a', 'v', 'e'], ['v', 'i', 'e', 'w']] ∧
        t ≠ [] ∧ t.all Char.isAlphanum = true ∧ cs = '/' :: (v ++ '/' :: t) ∧
        st = ⟨6 + t.length, [], [(2, t), (1, v)]⟩ := by
  constructor
  · intro h
    have hm : st ∈ validPath.run ⟨0, cs, []⟩ := List.mem_of_mem_head? (by simp [h])
    exact ((mem_run_validPath 0 cs st).mp hm).2
  · rintro ⟨v, t, hv, ht, hal, hcs, rfl⟩
    have hm : (⟨6 + t.length, [], [(2, t), (1, v)]⟩ : MState) ∈ validPath.run ⟨0, cs, []⟩ :=
      (mem_run_validPath 0 cs _).mpr ⟨rfl, v, t, hv, ht, hal, hcs, rfl⟩
    cases hl : validPath.run ⟨0, cs, []⟩ with
    | nil => rw [hl] at hm; simp at hm
    | cons st1 l =>
      have hm1 : st1 ∈ validPath.run ⟨0, cs, []⟩ := by rw [hl]; simp
      obtain ⟨-, v1, t1, hv1, -, -, hcs1, rfl⟩ := (mem_run_validPath 0 cs st1).mp hm1
      rw [hcs] at hcs1
      have h2 : v ++ '/' :: t = v1 ++ '/' :: t1 := by simpa using hcs1
      have h3 := List.append_inj h2 (by rw [verb_length v hv, verb_length v1 hv1])
      obtain ⟨rfl, h4⟩ := h3
      have h5 : t = t1 := by simpa using h4
      subst h5
      rfl

theorem numSubexp_validPath : validPath.numSubexp = 2 := rfl

theorem findStringSubmatch_validPath (s : String) (m : List String) :
    validPath.FindStringSubmatch s = some m ↔
      ∃ v t, v ∈ ["edit", "save", "view"] ∧ validTitle t = true ∧
        s = "/" ++ v ++ "/" ++ t ∧ m = [s, v, t] := by
  unfold Regex.FindStringSubmatch
  rw [find_validPath_zero, Option.map_map, Option.map_eq_some']
  constructor
  · rintro ⟨st, hst, rfl⟩
    obtain ⟨v, t, hv, ht, hal, hcs, rfl⟩ := (head_run_validPath _ _).mp hst
    refine ⟨String.mk v, String.mk t, ?_, ?_, ?_, ?_⟩
    · simp only [List.mem_cons, List.mem_singleton, List.not_mem_nil, or_false] at hv
      rcases hv with rfl | rfl | rfl <;> decide
    · cases t with
      | nil => exact absurd rfl ht
      | cons c t => simpa [validTitle] using hal
    · apply String.ext
      simp only [String.toList] at hcs
      simp [String.data_append, hcs]
    · simp only [Function.comp, List.length_nil, Nat.sub_zero, List.take_length]
      have hs : String.mk s.toList = s := rfl
      simp [numSubexp_validPath, List.range_succ, List.lookup, hs]
  · rintro ⟨v, t, hv, ht, rfl, rfl⟩
    refine ⟨⟨6 + t.toList.length, [], [(2, t.toList), (1, v.toList)]⟩, ?_, ?_⟩
    · apply (head_run_validPath _ _).mpr
      refine ⟨v.toList, t.toList, ?_, ?_, ?_, ?_, rfl⟩
      · simp only [List.mem_cons, List.mem_singleton, List.not_mem_nil, or_false] at hv
        rcases hv with rfl | rfl | rfl <;> decide
      · intro h
        simp [validTitle, h] at ht
        exact ht.1 h
      · simp only [validTitle, Bool.and_eq_true] at ht
        exact ht.2
      · simp [String.toList, String.data_append]
    · simp only [Function.comp, List.length_nil, Nat.sub_zero, List.take_length]
      have hs : ∀ x : String, String.mk x.toList = x := fun _ => rfl
      simp [numSubexp_validPath, List.range_succ, List.lookup, hs]
      apply String.ext
      simp [String.data_append]

/-! ## `getTitle` -/

theorem getTitle_ok (r : Request) (σ : World) (v t : String)
    (hv : v ∈ ["edit", "save", "view"]) (ht : validTitle t = true)
    (hp : r.URL.Path = "/" ++ v ++ "/" ++ t) :
    getTitle r σ = ((t, none), σ) := by
  have h := (findStringSubmatch_validPath r.URL.Path [r.URL.Path, v, t]).mpr
    ⟨v, t, hv, ht, hp, rfl⟩
  simp [getTitle, h]

theorem getTitle_bad (r : Request) (σ : World)
    (h : ¬ ∃ v t, v ∈ ["edit", "save", "view"] ∧ validTitle t = true ∧
      r.URL.Path = "/" ++ v ++ "/" ++ t) :
    getTitle r σ = (("", some "Invalid Page Title"), http.NotFound r σ) := by
  cases hm : validPath.FindStringSubmatch r.URL.Path with
  | none => simp [getTitle, hm]
  | some m =>
    obtain ⟨v, t, hv, ht, hp, -⟩ := (findStringSubmatch_validPath _ _).mp hm
    exact absurd ⟨v, t, hv, ht, hp⟩ h

theorem status_errorReply (w : ResponseWriter) (msg : String) (code : Nat) (h : w.sent = none) :
    (http.errorReply w msg code).status = some code ∧
      (http.errorReply w msg code).body = w.body ++ bytesOf (msg ++ "\n") := by
  simp [http.errorReply, ResponseWriter.Write, ResponseWriter.WriteHeader,
    ResponseWriter.setHeader, ResponseWriter.status, h]

/-- Claim C1. `getTitle` returns a nil error exactly for the paths `/v/t` with
`v` one of `edit`, `save`, `view` and `t` a non-empty string of ASCII letters
and digits; it then returns `t` and leaves the response (and everything else)
untouched.  For every other path it returns the empty title with the error
`Invalid Page Title` after `http.NotFound`, which on a response not yet written
gives status 404 with the not-found text as body. -/
theorem C1_getTitle_contract (r : Request) (σ : World) :
    ((getTitle r σ).1.2 = none ↔
        ∃ v t, v ∈ ["edit", "save", "view"] ∧ validTitle t = true ∧
          r.URL.Path = "/" ++ v ++ "/" ++ t) ∧
    (∀ v t, v ∈ ["edit", "save", "view"] → validTitle t = true →
        r.URL.Path = "/" ++ v ++ "/" ++ t → getTitle r σ = ((t, none), σ)) ∧
    ((getTitle r σ).1.2 ≠ none →
        getTitle r σ = (("", some "Invalid Page Title"), http.NotFound r σ) ∧
        (getTitle r σ).2.trace = σ.trace ++ [Call.NotFound] ∧
        (getTitle r σ).2.fs = σ.fs ∧
        (σ.w.sent = none →
          (getTitle r σ).2.w.status = some 404 ∧
          (getTitle r σ).2.w.body = σ.w.body ++ bytesOf "404 page not found\n")) := by
  by_cases h : ∃ v t, v ∈ ["edit", "save", "view"] ∧ validTitle t = true ∧
      r.URL.Path = "/" ++ v ++ "/" ++ t
  · obtain ⟨v, t, hv, ht, hp⟩ := h
    have hok := getTitle_ok r σ v t hv ht hp
    refine ⟨⟨fun _ => ⟨v, t, hv, ht, hp⟩, fun _ => by rw [hok]⟩, ?_, ?_⟩
    · intro v1 t1 hv1 ht1 hp1
      exact getTitle_ok r σ v1 t1 hv1 ht1 hp1
    · intro hne
      rw [hok] at hne
      exact absurd rfl hne
  · have hbad := getTitle_bad r σ h
    refine ⟨⟨fun hn => ?_, fun hex => absurd hex h⟩, ?_, ?_⟩
    · rw [hbad] at hn
      simp at hn
    · intro v t hv ht hp
      exact absurd ⟨v, t, hv, ht, hp⟩ h
    · intro _
      rw [hbad]
      refine ⟨rfl, rfl, rfl, fun hs => ?_⟩
      have := status_errorReply σ.w "404 page not found" 404 hs
      exact ⟨this.1, this.2⟩

theorem notFound_init (r : Request) (fs : FileSystem) :
    (http.NotFound r (World.init fs)).w.status = some 404 ∧
      (http.NotFound r (World.init fs)).w.location = none ∧
      (http.NotFound r (World.init fs)).fs = fs ∧
      (http.NotFound r (World.init fs)).trace = [Call.NotFound] := by
  refine ⟨?_, ?_, rfl, rfl⟩
  · exact (status_errorReply _ _ _ rfl).1
  · rfl

theorem handlers_bad (templates : Templates) (r : Request) (title : String) (σ : World)
    (h : ¬ ∃ v t, v ∈ ["edit", "save", "view"] ∧ validTitle t = true ∧
      r.URL.Path = "/" ++ v ++ "/" ++ t) :
    viewHandler templates r title σ = http.NotFound r σ ∧
      editHandler templates r title σ = http.NotFound r σ ∧
      saveHandler r title σ = http.NotFound r σ := by
  have hbad := getTitle_bad r σ h
  refine ⟨?_, ?_, ?_⟩
  · simp [viewHandler, hbad]
  · simp [editHandler, hbad]
  · simp [saveHandler, hbad]

/-- Claim C2. When the request path is not of the form `/v/t` with `v` a route
verb and `t` a non-empty alphanumeric title, each of the three handlers, from
any file store, answers 404 and makes no other call: no file is read or
written, the store is unchanged, nothing is redirected or rendered. -/
theorem C2_invalid_path_not_found (templates : Templates) (r : Request) (title : String)
    (fs : FileSystem)
    (h : ¬ ∃ v t, v ∈ ["edit", "save", "view"] ∧ validTitle t = true ∧
      r.URL.Path = "/" ++ v ++ "/" ++ t) :
    ((viewHandler templates r title (World.init fs)).w.status = some 404 ∧
      (viewHandler templates r title (World.init fs)).w.location = none ∧
      (viewHandler templates r title (World.init fs)).fs = fs ∧
      (viewHandler templates r title (World.init fs)).trace = [Call.NotFound]) ∧
    ((editHandler templates r title (World.init fs)).w.status = some 404 ∧
      (editHandler templates r title (World.init fs)).w.location = none ∧
      (editHandler templates r title (World.init fs)).fs = fs ∧
      (editHandler templates r title (World.init fs)).trace = [Call.NotFound]) ∧
    ((saveHandler r title (World.init fs)).w.status = some 404 ∧
      (saveHandler r title (World.init fs)).w.location = none ∧
      (saveHandler r title (World.init fs)).fs = fs ∧
      (saveHandler r title (World.init fs)).trace = [Call.NotFound]) := by
  rw [(handlers_bad templates r title (World.init fs) h).1,
    (handlers_bad templates r title (World.init fs) h).2.1,
    (handlers_bad templates r title (World.init fs) h).2.2]
  exact ⟨notFound_init r fs, notFound_init r fs, notFound_init r fs⟩

/-- Instance of C2: the path `/edit/../../etc/passwd` on the empty store. -/
theorem C2_invalid_path_not_found_witness :
    (viewHandler demoTemplates ⟨"GET", ⟨"/edit/../../etc/passwd"⟩, []⟩ ""
        (World.init emptyStore)).w.status = some 404 ∧
      (viewHandler demoTemplates ⟨"GET", ⟨"/edit/../../etc/passwd"⟩, []⟩ ""
        (World.init emptyStore)).w.location = none ∧
      (viewHandler demoTemplates ⟨"GET", ⟨"/edit/../../etc/passwd"⟩, []⟩ ""
        (World.init emptyStore)).fs = emptyStore ∧
      (viewHandler demoTemplates ⟨"GET", ⟨"/edit/../../etc/passwd"⟩, []⟩ ""
        (World.init emptyStore)).trace = [Call.NotFound] :=
  (C2_invalid_path_not_found demoTemplates ⟨"GET", ⟨"/edit/../../etc/passwd"⟩, []⟩ "" emptyStore
    (fun hex => by
      obtain ⟨v, t, hv, ht, hp⟩ := hex
      have hm := (findStringSubmatch_validPath "/edit/../../etc/passwd" _).mpr
        ⟨v, t, hv, ht, hp, rfl⟩
      have hnone : validPath.FindStringSubmatch "/edit/../../etc/passwd" = none := by decide
      rw [hnone] at hm
      exact Option.noConfusion hm)).1

/-! ## Effects of the library calls and of `renderTemplate` -/

theorem renderTemplate_trace (templates : Templates) (tmpl : String) (p : Page) (σ : World) :
    (renderTemplate templates tmpl p σ).trace =
      σ.trace ++ Call.ExecuteTemplate (tmpl ++ ".html") p ::
        (match (templates (tmpl ++ ".html") p).err with
         | some e => [Call.Error e 500]
         | none => []) := by
  unfold renderTemplate ExecuteTemplate
  cases h : (templates (tmpl ++ ".html") p).err <;>
    simp [h, http.Error, World.log, http.StatusInternalServerError]

theorem renderTemplate_fs (templates : Templates) (tmpl : String) (p : Page) (σ : World) :
    (renderTemplate templates tmpl p σ).fs = σ.fs := by
  unfold renderTemplate ExecuteTemplate
  cases h : (templates (tmpl ++ ".html") p).err <;> simp [h, http.Error, World.log]

theorem filesTouched_renderTemplate (templates : Templates) (tmpl : String) (p : Page)
    (σ : World) :
    filesTouched (renderTemplate templates tmpl p σ).trace = filesTouched σ.trace := by
  rw [renderTemplate_trace]
  cases h : (templates (tmpl ++ ".html") p).err <;>
    simp [filesTouched, List.filterMap_append, Call.fileName]

theorem loadPage_eq (title : String) (σ : World) :
    loadPage title σ =
      (if nameTooLong (title ++ ".txt") = true then
        (.error ("open " ++ (title ++ ".txt") ++ ": file name too long"),
          σ.log (.ReadFile (title ++ ".txt")))
      else
        match σ.fs.get (title ++ ".txt") with
        | some (.file data) => (.ok ⟨title, data⟩, σ.log (.ReadFile (title ++ ".txt")))
        | some .dir =>
          (.error ("read " ++ (title ++ ".txt") ++ ": is a directory"),
            σ.log (.ReadFile (title ++ ".txt")))
        | none =>
          (.error ("open " ++ (title ++ ".txt") ++ ": no such file or directory"),
            σ.log (.ReadFile (title ++ ".txt")))) := by
  unfold loadPage ioutil.ReadFile
  by_cases hl : nameTooLong (title ++ ".txt") = true
  · simp [hl]
  · cases h : σ.fs.get (title ++ ".txt") with
    | none => simp [h, hl]
    | some n => cases n <;> simp [h, hl]

theorem loadPage_world (title : String) (σ : World) :
    (loadPage title σ).2 = σ.log (.ReadFile (title ++ ".txt")) := by
  rw [loadPage_eq]
  by_cases hl : nameTooLong (title ++ ".txt") = true
  · simp [hl]
  · cases h : σ.fs.get (title ++ ".txt") with
    | none => simp [h, hl]
    | some n => cases n <;> simp [h, hl]

theorem save_eq (p : Page) (σ : World) :
    p.save σ =
      if nameTooLong (p.Title ++ ".txt") = true then
        (some ("open " ++ (p.Title ++ ".txt") ++ ": file name too long"),
          σ.log (.WriteFile (p.Title ++ ".txt") p.Body 0o600))
      else if σ.fs.readOnly = true then
        (some ("open " ++ (p.Title ++ ".txt") ++ ": read-only file system"),
          σ.log (.WriteFile (p.Title ++ ".txt") p.Body 0o600))
      else if σ.fs.get (p.Title ++ ".txt") = some .dir then
        (some ("open " ++ (p.Title ++ ".txt") ++ ": is a directory"),
          σ.log (.WriteFile (p.Title ++ ".txt") p.Body 0o600))
      else if p.Body.length ≤ σ.fs.free + sizeOfEntry (σ.fs.get (p.Title ++ ".txt")) then
        (none, { σ.log (.WriteFile (p.Title ++ ".txt") p.Body 0o600) with
          fs := { σ.fs with
            entries := (p.Title ++ ".txt", .file p.Body) ::
              σ.fs.entries.filter fun e => e.1 != p.Title ++ ".txt",
            free := σ.fs.free + sizeOfEntry (σ.fs.get (p.Title ++ ".txt")) - p.Body.length } })
      else
        (some ("write " ++ (p.Title ++ ".txt") ++ ": no space left on device"),
          { σ.log (.WriteFile (p.Title ++ ".txt") p.Body 0o600) with
            fs := { σ.fs with
              entries := (p.Title ++ ".txt", .file (p.Body.take
                  (σ.fs.free + sizeOfEntry (σ.fs.get (p.Title ++ ".txt"))))) ::
                σ.fs.entries.filter fun e => e.1 != p.Title ++ ".txt",
              free := 0 } }) := by
  unfold Page.save ioutil.WriteFile
  by_cases hl : nameTooLong (p.Title ++ ".txt") = true
  · simp [hl]
  · by_cases hro : σ.fs.readOnly = true
    · simp [hl, hro]
    · cases h : σ.fs.get (p.Title ++ ".txt") with
      | none => simp [h, hl, hro]
      | some n => cases n <;> simp [h, hl, hro]

theorem save_trace (p : Page) (σ : World) :
    (p.save σ).2.trace = σ.trace ++ [Call.WriteFile (p.Title ++ ".txt") p.Body 0o600] := by
  rw [save_eq]
  split_ifs <;> rfl

theorem save_w (p : Page) (σ : World) : (p.save σ).2.w = σ.w := by
  rw [save_eq]
  split_ifs <;> rfl

theorem viewHandler_ok (templates : Templates) (r : Request) (title : String) (σ : World)
    (v t : String) (hv : v ∈ ["edit", "save", "view"]) (ht : validTitle t = true)
    (hp : r.URL.Path = "/" ++ v ++ "/" ++ t) :
    viewHandler templates r title σ =
      (match (loadPage t σ).1 with
       | .error _ => http.Redirect r ("/edit/" ++ t) http.StatusFound
           (σ.log (.ReadFile (t ++ ".txt")))
       | .ok p => renderTemplate templates "view" p (σ.log (.ReadFile (t ++ ".txt")))) := by
  have h := loadPage_world t σ
  unfold viewHandler
  rw [getTitle_ok r σ v t hv ht hp]
  simp only
  revert h
  cases loadPage t σ with
  | mk res σ2 =>
    intro h
    simp only at h
    subst h
    cases res <;> rfl

theorem editHandler_ok (templates : Templates) (r : Request) (title : String) (σ : World)
    (v t : String) (hv : v ∈ ["edit", "save", "view"]) (ht : validTitle t = true)
    (hp : r.URL.Path = "/" ++ v ++ "/" ++ t) :
    editHandler templates r title σ =
      renderTemplate templates "edit"
        (match (loadPage t σ).1 with
         | .error _ => { Title := t, Body := [] }
         | .ok p => p)
        (σ.log (.ReadFile (t ++ ".txt"))) := by
  have h := loadPage_world t σ
  unfold editHandler
  rw [getTitle_ok r σ v t hv ht hp]
  simp only
  revert h
  cases loadPage t σ with
  | mk res σ2 =>
    intro h
    simp only at h
    subst h
    cases res <;> rfl

theorem saveHandler_ok (r : Request) (title : String) (σ : World)
    (v t : String) (hv : v ∈ ["edit", "save", "view"]) (ht : validTitle t = true)
    (hp : r.URL.Path = "/" ++ v ++ "/" ++ t) :
    saveHandler r title σ =
      (match (Page.save ⟨t, bytesOf (r.FormValue "body")⟩ σ).1 with
       | some err => http.Error err http.StatusInternalServerError
           (Page.save ⟨t, bytesOf (r.FormValue "body")⟩ σ).2
       | none => http.Redirect r ("/view/" ++ t) http.StatusFound
           (Page.save ⟨t, bytesOf (r.FormValue "body")⟩ σ).2) := by
  unfold saveHandler
  rw [getTitle_ok r σ v t hv ht hp]
  simp only
  cases Page.save ⟨t, bytesOf (r.FormValue "body")⟩ σ with
  | mk res σ2 => cases res <;> rfl

/-! ## File names -/

theorem fileName_safe (t : String) (ht : validTitle t = true) :
    '/' ∉ (t ++ ".txt").toList ∧ ¬ (['.', '.'] <:+: (t ++ ".txt").toList) := by
  simp only [validTitle, Bool.and_eq_true, List.all_eq_true] at ht
  have hdata : (t ++ ".txt").toList = t.toList ++ ['.', 't', 'x', 't'] := by
    simp [String.toList, String.data_append]
  rw [hdata]
  constructor
  · intro hmem
    rcases List.mem_append.mp hmem with h | h
    · have := ht.2 _ h
      revert this
      decide
    · revert h
      decide
  · intro hin
    have hle := hin.sublist.count_le '.'
    have hzero : List.count '.' t.toList = 0 := by
      apply List.count_eq_zero.mpr
      intro hmem
      have := ht.2 _ hmem
      revert this
      decide
    rw [List.count_append, hzero] at hle
    revert hle
    decide

theorem filesTouched_viewHandler (templates : Templates) (r : Request) (title : String)
    (fs : FileSystem) (v t : String) (hv : v ∈ ["edit", "save", "view"])
    (ht : validTitle t = true) (hp : r.URL.Path = "/" ++ v ++ "/" ++ t) :
    filesTouched (viewHandler templates r title (World.init fs)).trace = [t ++ ".txt"] := by
  rw [viewHandler_ok templates r title _ v t hv ht hp]
  cases (loadPage t (World.init fs)).1 with
  | error e => rfl
  | ok p => simp only [filesTouched_renderTemplate]; rfl

theorem filesTouched_editHandler (templates : Templates) (r : Request) (title : String)
    (fs : FileSystem) (v t : String) (hv : v ∈ ["edit", "save", "view"])
    (ht : validTitle t = true) (hp : r.URL.Path = "/" ++ v ++ "/" ++ t) :
    filesTouched (editHandler templates r title (World.init fs)).trace = [t ++ ".txt"] := by
  rw [editHandler_ok templates r title _ v t hv ht hp, filesTouched_renderTemplate]
  rfl

theorem filesTouched_saveHandler (r : Request) (title : String)
    (fs : FileSystem) (v t : String) (hv : v ∈ ["edit", "save", "view"])
    (ht : validTitle t = true) (hp : r.URL.Path = "/" ++ v ++ "/" ++ t) :
    filesTouched (saveHandler r title (World.init fs)).trace = [t ++ ".txt"] := by
  rw [saveHandler_ok r title _ v t hv ht hp]
  have htr := save_trace ⟨t, bytesOf (r.FormValue "body")⟩ (World.init fs)
  cases h : (Page.save ⟨t, bytesOf (r.FormValue "body")⟩ (World.init fs)).1 with
  | none =>
    simp only [http.Redirect, World.log, htr]
    rfl
  | some e =>
    simp only [http.Error, World.log, htr]
    rfl

/-- Claim C3. Every file name that any of the three handlers passes to the file
store, for any request and any store, is `t ++ ".txt"` where the request path
is `/v/t` with `t` non-empty and alphanumeric; such a name contains neither `/`
nor `..`, so it names an entry of the working directory itself. -/
theorem C3_file_names_stay_in_directory (templates : Templates) (r : Request)
    (title : String) (fs : FileSystem) (name : String)
    (h : name ∈ filesTouched (viewHandler templates r title (World.init fs)).trace ∨
         name ∈ filesTouched (editHandler templates r title (World.init fs)).trace ∨
         name ∈ filesTouched (saveHandler r title (World.init fs)).trace) :
    (∃ v t, v ∈ ["edit", "save", "view"] ∧ validTitle t = true ∧
        r.URL.Path = "/" ++ v ++ "/" ++ t ∧ name = t ++ ".txt") ∧
      '/' ∉ name.toList ∧ ¬ (['.', '.'] <:+: name.toList) := by
  by_cases hex : ∃ v t, v ∈ ["edit", "save", "view"] ∧ validTitle t = true ∧
      r.URL.Path = "/" ++ v ++ "/" ++ t
  · obtain ⟨v, t, hv, ht, hp⟩ := hex
    rw [filesTouched_viewHandler templates r title fs v t hv ht hp,
      filesTouched_editHandler templates r title fs v t hv ht hp,
      filesTouched_saveHandler r title fs v t hv ht hp] at h
    have hname : name = t ++ ".txt" := by
      rcases h with h | h | h <;> simpa using h
    subst hname
    exact ⟨⟨v, t, hv, ht, hp, rfl⟩, fileName_safe t ht⟩
  · have h2 := handlers_bad templates r title (World.init fs) hex
    rw [h2.1, h2.2.1, h2.2.2, (notFound_init r fs).2.2.2] at h
    simp [filesTouched, Call.fileName] at h

/-- Instance of C3: saving `/save/Test` touches the file `Test.txt` only. -/
theorem C3_file_names_stay_in_directory_witness :
    (∃ v t, v ∈ ["edit", "save", "view"] ∧ validTitle t = true ∧
        "/save/Test" = "/" ++ v ++ "/" ++ t ∧ "Test.txt" = t ++ ".txt") ∧
      '/' ∉ "Test.txt".toList ∧ ¬ (['.', '.'] <:+: "Test.txt".toList) :=
  C3_file_names_stay_in_directory demoTemplates ⟨"POST", ⟨"/save/Test"⟩, [("body", ["x"])]⟩ ""
    emptyStore "Test.txt" (Or.inr (Or.inr (by decide)))

/-! ## The file store: `save` and `loadPage` -/

theorem lookup_filter_ne (l : List (String × Node)) (k n : String) (h : k ≠ n) :
    (l.filter fun e => e.1 != n).lookup k = l.lookup k := by
  induction l with
  | nil => rfl
  | cons e l ih =>
    obtain ⟨a, b⟩ := e
    by_cases ha : a = n
    · subst ha
      have hk : (k == a) = false := by simpa using h
      simp [List.filter, List.lookup, hk, ih]
    · have hne : (a != n) = true := by simpa using ha
      simp only [List.filter, hne, List.lookup]
      cases hka : (k == a) with
      | true => rfl
      | false => simpa using ih

theorem get_cons_other (fs : FileSystem) (n k : String) (node : Node) (ro : Bool) (fr : Nat)
    (h : k ≠ n) :
    (FileSystem.mk ((n, node) :: fs.entries.filter fun e => e.1 != n) ro fr).get k =
      fs.get k := by
  have hk : (k == n) = false := by simpa using h
  unfold FileSystem.get
  by_cases hl : nameTooLong k = true
  · simp [hl]
  · simp only [hl, if_false, List.lookup, hk]
    exact lookup_filter_ne _ _ _ h

theorem get_cons_self (l : List (String × Node)) (n : String) (node : Node) (ro : Bool)
    (fr : Nat) (hl : ¬ nameTooLong n = true) :
    (FileSystem.mk ((n, node) :: l) ro fr).get n = some node := by
  unfold FileSystem.get
  simp [hl, List.lookup]

theorem txt_injective (t u : String) (h : t ++ ".txt" = u ++ ".txt") : t = u := by
  apply String.ext
  have := congrArg String.data h
  simp only [String.data_append] at this
  exact List.append_cancel_right this

theorem save_none_fs (p : Page) (σ : World) (h : (p.save σ).1 = none) :
    ¬ nameTooLong (p.Title ++ ".txt") = true ∧
      (p.save σ).2.fs.get (p.Title ++ ".txt") = some (.file p.Body) ∧
      (p.save σ).2.fs.entries.filter (fun e => e.1 == p.Title ++ ".txt") =
        [(p.Title ++ ".txt", Node.file p.Body)] := by
  rw [save_eq] at h ⊢
  by_cases hl : nameTooLong (p.Title ++ ".txt") = true
  · simp [hl] at h
  · by_cases hro : σ.fs.readOnly = true
    · simp [hl, hro] at h
    · by_cases hd : σ.fs.get (p.Title ++ ".txt") = some .dir
      · simp [hl, hro, hd] at h
      · by_cases hfit : p.Body.length ≤ σ.fs.free + sizeOfEntry (σ.fs.get (p.Title ++ ".txt"))
        · rw [if_neg hl, if_neg hro, if_neg hd, if_pos hfit]
          refine ⟨hl, get_cons_self _ _ _ _ _ hl, ?_⟩
          simp [World.log, List.filter_filter]
        · simp [hl, hro, hd, hfit] at h

theorem save_get_other (p : Page) (σ : World) (name : String)
    (hname : name ≠ p.Title ++ ".txt") :
    (p.save σ).2.fs.get name = σ.fs.get name := by
  rw [save_eq]
  split_ifs
  · rfl
  · rfl
  · rfl
  · exact get_cons_other σ.fs _ name _ _ _ hname
  · exact get_cons_other σ.fs _ name _ _ _ hname

/-- Claim C4. For every title (in particular every alphanumeric one), every
body `B` and every prior state, if `Page{title, B}.save()` succeeds then
`loadPage(title)` afterwards succeeds and returns exactly `Page{title, B}`, and
the store then holds a single entry for `<title>.txt`, with content `B`:
whatever was stored before under that name is gone. -/
theorem C4_save_then_load (title : String) (B : Bytes) (σ : World)
    (h : (Page.save ⟨title, B⟩ σ).1 = none) :
    (loadPage title (Page.save ⟨title, B⟩ σ).2).1 = Except.ok ⟨title, B⟩ ∧
      (Page.save ⟨title, B⟩ σ).2.fs.entries.filter (fun e => e.1 == title ++ ".txt") =
        [(title ++ ".txt", Node.file B)] := by
  obtain ⟨hl, hget, hent⟩ := save_none_fs ⟨title, B⟩ σ h
  refine ⟨?_, hent⟩
  rw [loadPage_eq, if_neg hl]
  simp only at hget
  rw [hget]

/-- Instance of C4: `Test.txt` holds `old` and is overwritten with `new`. -/
theorem C4_save_then_load_witness :
    (loadPage "Test" (Page.save ⟨"Test", bytesOf "new"⟩ (World.init oldTestStore)).2).1 =
        Except.ok ⟨"Test", bytesOf "new"⟩ ∧
      (Page.save ⟨"Test", bytesOf "new"⟩ (World.init oldTestStore)).2.fs.entries.filter
          (fun e => e.1 == "Test" ++ ".txt") = [("Test" ++ ".txt", Node.file (bytesOf "new"))] :=
  C4_save_then_load "Test" (bytesOf "new") (World.init oldTestStore) (by decide)

/-- Claim C10. Saving the page `t` does not disturb another page `u`: the file
names `t.txt` and `u.txt` differ, `save` changes no entry of the store other
than `t.txt`, and `loadPage(u)` gives the same result (success or failure, and
the same page) after the save as before, whether or not the save succeeded. -/
theorem C10_save_frame (t u : String) (B : Bytes) (σ : World) (h : t ≠ u) :
    t ++ ".txt" ≠ u ++ ".txt" ∧
      (∀ name, name ≠ t ++ ".txt" →
        (Page.save ⟨t, B⟩ σ).2.fs.get name = σ.fs.get name) ∧
      (loadPage u (Page.save ⟨t, B⟩ σ).2).1 = (loadPage u σ).1 := by
  have hne : t ++ ".txt" ≠ u ++ ".txt" := fun he => h (txt_injective t u he)
  have hframe : ∀ name, name ≠ t ++ ".txt" →
      (Page.save ⟨t, B⟩ σ).2.fs.get name = σ.fs.get name :=
    fun name hname => save_get_other ⟨t, B⟩ σ name hname
  refine ⟨hne, hframe, ?_⟩
  rw [loadPage_eq, loadPage_eq, hframe _ (Ne.symm hne)]
  by_cases hl : nameTooLong (u ++ ".txt") = true
  · simp [hl]
  · simp only [hl, if_false]
    cases σ.fs.get (u ++ ".txt") with
    | none => rfl
    | some n => cases n <;> rfl

/-- Instance of C10: saving `A` leaves the stored page `B` as it was. -/
theorem C10_save_frame_witness :
    "A" ++ ".txt" ≠ "B" ++ ".txt" ∧
      (∀ name, name ≠ "A" ++ ".txt" →
        (Page.save ⟨"A", bytesOf "x"⟩ (World.init otherPageStore)).2.fs.get name =
        (World.init otherPageStore).fs.get name) ∧
      (loadPage "B" (Page.save ⟨"A", bytesOf "x"⟩ (World.init otherPageStore)).2).1 =
        (loadPage "B" (World.init otherPageStore)).1 :=
  C10_save_frame "A" "B" (bytesOf "x") (World.init otherPageStore) (by decide)

/-! ## The handlers on a valid path -/

theorem redirect_fresh (r : Request) (url : String) (code : Nat) (σ : World)
    (hw : σ.w = ResponseWriter.fresh) :
    (http.Redirect r url code σ).w.status = some code ∧
      (http.Redirect r url code σ).w.location = some url ∧
      (http.Redirect r url code σ).fs = σ.fs ∧
      (http.Redirect r url code σ).trace = σ.trace ++ [Call.Redirect url code] := by
  have hne : ("Location" == "Content-Type") = false := by decide
  refine ⟨?_, ?_, rfl, rfl⟩
  · unfold http.Redirect
    rw [hw]
    by_cases h1 : (r.Method == "GET") = true <;> by_cases h2 : (r.Method == "HEAD") = true <;>
      simp [h1, h2, ResponseWriter.fresh, ResponseWriter.setHeader, ResponseWriter.WriteHeader,
        ResponseWriter.Write, ResponseWriter.status, World.log, List.lookup]
  · unfold http.Redirect
    rw [hw]
    by_cases h1 : (r.Method == "GET") = true <;> by_cases h2 : (r.Method == "HEAD") = true <;>
      simp [h1, h2, ResponseWriter.fresh, ResponseWriter.setHeader, ResponseWriter.WriteHeader,
        ResponseWriter.Write, ResponseWriter.location, World.log, List.lookup, hne]

theorem path_view (t : String) : "/view/" ++ t = "/" ++ "view" ++ "/" ++ t := by
  apply String.ext; simp [String.data_append]

theorem path_edit (t : String) : "/edit/" ++ t = "/" ++ "edit" ++ "/" ++ t := by
  apply String.ext; simp [String.data_append]

theorem path_save (t : String) : "/save/" ++ t = "/" ++ "save" ++ "/" ++ t := by
  apply String.ext; simp [String.data_append]

/-- Claim C5. For a valid title `t` whose page cannot be loaded (the file
`t.txt` is missing or cannot be read), `viewHandler` on `/view/t` answers 302
with `Location: /edit/t`; its only calls are the failed read and the redirect,
so no template is rendered and no file written, and the store is unchanged. -/
theorem C5_view_missing_redirects (templates : Templates) (r : Request) (title : String)
    (fs : FileSystem) (t : String) (ht : validTitle t = true)
    (hp : r.URL.Path = "/view/" ++ t)
    (hload : (loadPage t (World.init fs)).1.isOk = false) :
    (viewHandler templates r title (World.init fs)).w.status = some 302 ∧
      (viewHandler templates r title (World.init fs)).w.location = some ("/edit/" ++ t) ∧
      (viewHandler templates r title (World.init fs)).trace =
        [Call.ReadFile (t ++ ".txt"), Call.Redirect ("/edit/" ++ t) 302] ∧
      (viewHandler templates r title (World.init fs)).fs = fs := by
  rw [viewHandler_ok templates r title _ "view" t (by decide) ht (hp.trans (path_view t))]
  cases hl : (loadPage t (World.init fs)).1 with
  | ok p => rw [hl] at hload; exact absurd hload (by simp [Except.isOk, Except.toBool])
  | error e =>
    have h := redirect_fresh r ("/edit/" ++ t) http.StatusFound
      ((World.init fs).log (.ReadFile (t ++ ".txt"))) rfl
    exact ⟨h.1, h.2.1, h.2.2.2, h.2.2.1⟩

/-- Instance of C5: `GET /view/NoSuch` on the empty store. -/
theorem C5_view_missing_redirects_witness :
    (viewHandler demoTemplates ⟨"GET", ⟨"/view/NoSuch"⟩, []⟩ "" (World.init emptyStore)).w.status =
        some 302 ∧
      (viewHandler demoTemplates ⟨"GET", ⟨"/view/NoSuch"⟩, []⟩ ""
        (World.init emptyStore)).w.location = some ("/edit/" ++ "NoSuch") ∧
      (viewHandler demoTemplates ⟨"GET", ⟨"/view/NoSuch"⟩, []⟩ "" (World.init emptyStore)).trace =
        [Call.ReadFile ("NoSuch" ++ ".txt"), Call.Redirect ("/edit/" ++ "NoSuch") 302] ∧
      (viewHandler demoTemplates ⟨"GET", ⟨"/view/NoSuch"⟩, []⟩ "" (World.init emptyStore)).fs =
        emptyStore :=
  C5_view_missing_redirects demoTemplates ⟨"GET", ⟨"/view/NoSuch"⟩, []⟩ "" emptyStore "NoSuch"
    (by decide) (by decide) (by decide)

/-! ## The response after `renderTemplate` -/

theorem write_eq (w : ResponseWriter) (d : Bytes) :
    w.Write d = ⟨w.header, some (w.sent.getD (200, w.header)), w.body ++ d⟩ := by
  obtain ⟨h, s, b⟩ := w
  cases s <;> rfl

theorem foldl_write (ws : List Bytes) :
    ∀ w : ResponseWriter, ws ≠ [] →
      ws.foldl ResponseWriter.Write w =
        ⟨w.header, some (w.sent.getD (200, w.header)), w.body ++ ws.flatten⟩ := by
  induction ws with
  | nil => intro w h; exact absurd rfl h
  | cons d ds ih =>
    intro w _
    rw [List.foldl_cons]
    cases ds with
    | nil => simp [write_eq]
    | cons e es =>
      rw [ih (w.Write d) (by simp), write_eq]
      simp

theorem errorReply_eq (w : ResponseWriter) (msg : String) (code : Nat) :
    http.errorReply w msg code =
      ⟨((w.setHeader "Content-Type" "text/plain; charset=utf-8").setHeader
          "X-Content-Type-Options" "nosniff").header,
        some (w.sent.getD (code,
          ((w.setHeader "Content-Type" "text/plain; charset=utf-8").setHeader
            "X-Content-Type-Options" "nosniff").header)),
        w.body ++ bytesOf (msg ++ "\n")⟩ := by
  obtain ⟨h, s, b⟩ := w
  cases s <;> rfl

theorem renderTemplate_w (templates : Templates) (tmpl : String) (p : Page) (σ : World) :
    (renderTemplate templates tmpl p σ).w =
      (match (templates (tmpl ++ ".html") p).err with
       | some e => http.errorReply
           ((templates (tmpl ++ ".html") p).writes.foldl ResponseWriter.Write σ.w) e 500
       | none => (templates (tmpl ++ ".html") p).writes.foldl ResponseWriter.Write σ.w) := by
  unfold renderTemplate ExecuteTemplate
  cases h : (templates (tmpl ++ ".html") p).err <;>
    simp [h, http.Error, World.log, http.StatusInternalServerError]

theorem renderTemplate_location (templates : Templates) (tmpl : String) (p : Page) (σ : World)
    (hw : σ.w = ResponseWriter.fresh) :
    (renderTemplate templates tmpl p σ).w.location = none := by
  rw [renderTemplate_w, hw]
  by_cases hws : (templates (tmpl ++ ".html") p).writes = []
  · cases h : (templates (tmpl ++ ".html") p).err with
    | none => simp [hws]; rfl
    | some e => simp only [hws, List.foldl_nil]; rfl
  · cases h : (templates (tmpl ++ ".html") p).err with
    | none => simp only [foldl_write _ _ hws]; rfl
    | some e => simp only [foldl_write _ _ hws, errorReply_eq]; rfl

theorem renderTemplate_fresh (templates : Templates) (tmpl : String) (p : Page) (σ : World)
    (hw : σ.w = ResponseWriter.fresh) :
    (renderTemplate templates tmpl p σ).w.body =
        (templates (tmpl ++ ".html") p).writes.flatten ++
          (match (templates (tmpl ++ ".html") p).err with
           | some e => bytesOf (e ++ "\n")
           | none => []) ∧
      (renderTemplate templates tmpl p σ).w.status =
        (match (templates (tmpl ++ ".html") p).writes, (templates (tmpl ++ ".html") p).err with
         | [], some _ => some 500
         | [], none => none
         | _ :: _, _ => some 200) := by
  rw [renderTemplate_w, hw]
  cases hws : (templates (tmpl ++ ".html") p).writes with
  | nil =>
    cases (templates (tmpl ++ ".html") p).err with
    | none => exact ⟨rfl, rfl⟩
    | some e => simp only [List.foldl_nil, errorReply_eq]; exact ⟨rfl, rfl⟩
  | cons d ds =>
    have hne : d :: ds ≠ [] := by simp
    cases (templates (tmpl ++ ".html") p).err with
    | none => simp only [foldl_write _ _ hne]; exact ⟨by simp [ResponseWriter.fresh], rfl⟩
    | some e =>
      simp only [foldl_write _ _ hne, errorReply_eq]
      exact ⟨by simp [ResponseWriter.fresh], rfl⟩

theorem loadPage_missing (t : String) (σ : World)
    (h : ∀ B, σ.fs.get (t ++ ".txt") ≠ some (.file B)) :
    ∃ e, (loadPage t σ).1 = Except.error e := by
  rw [loadPage_eq]
  by_cases hl : nameTooLong (t ++ ".txt") = true
  · rw [if_pos hl]
    exact ⟨_, rfl⟩
  · simp only [hl, if_false]
    cases hg : σ.fs.get (t ++ ".txt") with
    | none => exact ⟨_, rfl⟩
    | some n =>
      cases n with
      | file B => exact absurd hg (h B)
      | dir => exact ⟨_, rfl⟩

theorem loadPage_file (t : String) (σ : World) (B : Bytes)
    (h : σ.fs.get (t ++ ".txt") = some (.file B)) :
    (loadPage t σ).1 = Except.ok ⟨t, B⟩ := by
  have hl : ¬ nameTooLong (t ++ ".txt") = true := by
    intro hl
    simp [FileSystem.get, hl] at h
  rw [loadPage_eq, if_neg hl, h]

/-- Claim C6. For a valid title `t`, `editHandler` on `/edit/t` is exactly the
rendering of the `edit` template: with a page of title `t` and empty body when
the store has no file `t.txt`, with the stored body when it has.  In both cases
the calls are the read and the template execution (followed by `http.Error` only
if the template itself fails), the response body is what the template wrote for
that page (followed by the error line if it failed), and the status is 200 as
soon as the template made a `Write` call: no redirect, no write, and the store
is unchanged. -/
theorem C6_edit_renders_form (templates : Templates) (r : Request) (title : String)
    (fs : FileSystem) (t : String) (ht : validTitle t = true)
    (hp : r.URL.Path = "/edit/" ++ t) :
    ((∀ B, fs.get (t ++ ".txt") ≠ some (.file B)) →
      editHandler templates r title (World.init fs) =
        renderTemplate templates "edit" ⟨t, []⟩ ((World.init fs).log (.ReadFile (t ++ ".txt"))) ∧
      (editHandler templates r title (World.init fs)).trace =
        Call.ReadFile (t ++ ".txt") :: Call.ExecuteTemplate "edit.html" ⟨t, []⟩ ::
          (match (templates "edit.html" ⟨t, []⟩).err with
           | some e => [Call.Error e 500]
           | none => []) ∧
      (editHandler templates r title (World.init fs)).w.body =
        (templates "edit.html" ⟨t, []⟩).writes.flatten ++
          (match (templates "edit.html" ⟨t, []⟩).err with
           | some e => bytesOf (e ++ "\n")
           | none => []) ∧
      (editHandler templates r title (World.init fs)).w.status =
        (match (templates "edit.html" ⟨t, []⟩).writes, (templates "edit.html" ⟨t, []⟩).err with
         | [], some _ => some 500
         | [], none => none
         | _ :: _, _ => some 200)) ∧
    (∀ B, fs.get (t ++ ".txt") = some (.file B) →
      editHandler templates r title (World.init fs) =
        renderTemplate templates "edit" ⟨t, B⟩ ((World.init fs).log (.ReadFile (t ++ ".txt"))) ∧
      (editHandler templates r title (World.init fs)).trace =
        Call.ReadFile (t ++ ".txt") :: Call.ExecuteTemplate "edit.html" ⟨t, B⟩ ::
          (match (templates "edit.html" ⟨t, B⟩).err with
           | some e => [Call.Error e 500]
           | none => []) ∧
      (editHandler templates r title (World.init fs)).w.body =
        (templates "edit.html" ⟨t, B⟩).writes.flatten ++
          (match (templates "edit.html" ⟨t, B⟩).err with
           | some e => bytesOf (e ++ "\n")
           | none => []) ∧
      (editHandler templates r title (World.init fs)).w.status =
        (match (templates "edit.html" ⟨t, B⟩).writes, (templates "edit.html" ⟨t, B⟩).err with
         | [], some _ => some 500
         | [], none => none
         | _ :: _, _ => some 200)) ∧
    (editHandler templates r title (World.init fs)).fs = fs ∧
    (editHandler templates r title (World.init fs)).w.location = none := by
  have hE := editHandler_ok templates r title (World.init fs) "edit" t (by decide) ht
    (hp.trans (path_edit t))
  have hname : "edit" ++ ".html" = "edit.html" := by decide
  refine ⟨?_, ?_, ?_, ?_⟩
  · intro hnone
    obtain ⟨e, he⟩ := loadPage_missing t (World.init fs) hnone
    rw [hE, he]
    have hr := renderTemplate_fresh templates "edit" ⟨t, []⟩
      ((World.init fs).log (.ReadFile (t ++ ".txt"))) rfl
    rw [hname] at hr
    refine ⟨rfl, ?_, hr.1, hr.2⟩
    rw [renderTemplate_trace, hname]
    rfl
  · intro B hB
    rw [hE, loadPage_file t _ B hB]
    have hr := renderTemplate_fresh templates "edit" ⟨t, B⟩
      ((World.init fs).log (.ReadFile (t ++ ".txt"))) rfl
    rw [hname] at hr
    refine ⟨rfl, ?_, hr.1, hr.2⟩
    rw [renderTemplate_trace, hname]
    rfl
  · rw [hE, renderTemplate_fs]
    rfl
  · rw [hE]
    exact renderTemplate_location _ _ _ _ rfl

/-- Instance of C6: `GET /edit/NoSuch` on the empty store renders the form for
an empty page, and `GET /edit/Test` on a store holding `Test` renders the
stored body. -/
theorem C6_edit_renders_form_witness :
    ((editHandler demoTemplates ⟨"GET", ⟨"/edit/NoSuch"⟩, []⟩ "" (World.init emptyStore)).trace =
        [Call.ReadFile "NoSuch.txt", Call.ExecuteTemplate "edit.html" ⟨"NoSuch", []⟩] ∧
      (editHandler demoTemplates ⟨"GET", ⟨"/edit/NoSuch"⟩, []⟩ "" (World.init emptyStore)).w.body =
        bytesOf "edit.html" ++ bytesOf "NoSuch" ∧
      (editHandler demoTemplates ⟨"GET", ⟨"/edit/NoSuch"⟩, []⟩ ""
        (World.init emptyStore)).w.status = some 200 ∧
      (editHandler demoTemplates ⟨"GET", ⟨"/edit/NoSuch"⟩, []⟩ "" (World.init emptyStore)).fs =
        emptyStore) ∧
    ((editHandler demoTemplates ⟨"GET", ⟨"/edit/Test"⟩, []⟩ "" (World.init oldTestStore)).trace =
        [Call.ReadFile "Test.txt", Call.ExecuteTemplate "edit.html" ⟨"Test", bytesOf "old"⟩] ∧
      (editHandler demoTemplates ⟨"GET", ⟨"/edit/Test"⟩, []⟩ "" (World.init oldTestStore)).w.body =
        bytesOf "edit.html" ++ bytesOf "Test" ++ bytesOf "old" ∧
      (editHandler demoTemplates ⟨"GET", ⟨"/edit/Test"⟩, []⟩ ""
        (World.init oldTestStore)).w.status = some 200) :=
  ⟨⟨((C6_edit_renders_form demoTemplates ⟨"GET", ⟨"/edit/NoSuch"⟩, []⟩ "" emptyStore "NoSuch"
        (by decide) (by decide)).1 (fun _ h => Option.noConfusion h)).2.1,
      ((C6_edit_renders_form demoTemplates ⟨"GET", ⟨"/edit/NoSuch"⟩, []⟩ "" emptyStore "NoSuch"
        (by decide) (by decide)).1 (fun _ h => Option.noConfusion h)).2.2.1,
      ((C6_edit_renders_form demoTemplates ⟨"GET", ⟨"/edit/NoSuch"⟩, []⟩ "" emptyStore "NoSuch"
        (by decide) (by decide)).1 (fun _ h => Option.noConfusion h)).2.2.2,
      (C6_edit_renders_form demoTemplates ⟨"GET", ⟨"/edit/NoSuch"⟩, []⟩ "" emptyStore "NoSuch"
        (by decide) (by decide)).2.2.1⟩,
    ⟨((C6_edit_renders_form demoTemplates ⟨"GET", ⟨"/edit/Test"⟩, []⟩ "" oldTestStore "Test"
        (by decide) (by decide)).2.1 (bytesOf "old") (by decide)).2.1,
      ((C6_edit_renders_form demoTemplates ⟨"GET", ⟨"/edit/Test"⟩, []⟩ "" oldTestStore "Test"
        (by decide) (by decide)).2.1 (bytesOf "old") (by decide)).2.2.1,
      ((C6_edit_renders_form demoTemplates ⟨"GET", ⟨"/edit/Test"⟩, []⟩ "" oldTestStore "Test"
        (by decide) (by decide)).2.1 (bytesOf "old") (by decide)).2.2.2⟩⟩

theorem formValue_present (r : Request) (key B : String) (vs : List String)
    (h : r.Form.lookup key = some (B :: vs)) : r.FormValue key = B := by
  simp [Request.FormValue, h]

theorem formValue_missing (r : Request) (key : String)
    (h : r.Form.lookup key = none ∨ r.Form.lookup key = some []) : r.FormValue key = "" := by
  rcases h with h | h <;> simp [Request.FormValue, h]

theorem saveHandler_success (r : Request) (title : String) (fs : FileSystem) (t : String)
    (ht : validTitle t = true) (hp : r.URL.Path = "/save/" ++ t)
    (h : (Page.save ⟨t, bytesOf (r.FormValue "body")⟩ (World.init fs)).1 = none) :
    (saveHandler r title (World.init fs)).w.status = some 302 ∧
      (saveHandler r title (World.init fs)).w.location = some ("/view/" ++ t) ∧
      (saveHandler r title (World.init fs)).fs.get (t ++ ".txt") =
        some (.file (bytesOf (r.FormValue "body"))) ∧
      (saveHandler r title (World.init fs)).trace =
        [Call.WriteFile (t ++ ".txt") (bytesOf (r.FormValue "body")) 0o600,
          Call.Redirect ("/view/" ++ t) 302] := by
  rw [saveHandler_ok r title _ "save" t (by decide) ht (hp.trans (path_save t)), h]
  have hw := save_w ⟨t, bytesOf (r.FormValue "body")⟩ (World.init fs)
  have htr := save_trace ⟨t, bytesOf (r.FormValue "body")⟩ (World.init fs)
  have hfs := (save_none_fs ⟨t, bytesOf (r.FormValue "body")⟩ (World.init fs) h).2.1
  have hr := redirect_fresh r ("/view/" ++ t) http.StatusFound
    (Page.save ⟨t, bytesOf (r.FormValue "body")⟩ (World.init fs)).2 hw
  refine ⟨hr.1, hr.2.1, ?_, ?_⟩
  · simp only
    rw [hr.2.2.1]
    exact hfs
  · simp only
    rw [hr.2.2.2, htr]
    rfl

theorem saveHandler_failure (r : Request) (title : String) (fs : FileSystem) (t e : String)
    (ht : validTitle t = true) (hp : r.URL.Path = "/save/" ++ t)
    (h : (Page.save ⟨t, bytesOf (r.FormValue "body")⟩ (World.init fs)).1 = some e) :
    (saveHandler r title (World.init fs)).w.status = some 500 ∧
      (saveHandler r title (World.init fs)).w.body = bytesOf (e ++ "\n") ∧
      (saveHandler r title (World.init fs)).w.location = none ∧
      (saveHandler r title (World.init fs)).trace =
        [Call.WriteFile (t ++ ".txt") (bytesOf (r.FormValue "body")) 0o600,
          Call.Error e 500] := by
  rw [saveHandler_ok r title _ "save" t (by decide) ht (hp.trans (path_save t)), h]
  have hw := save_w ⟨t, bytesOf (r.FormValue "body")⟩ (World.init fs)
  have htr := save_trace ⟨t, bytesOf (r.FormValue "body")⟩ (World.init fs)
  simp only [http.Error, World.log, hw, htr, http.StatusInternalServerError]
  refine ⟨?_, ?_, ?_, rfl⟩
  · exact (status_errorReply _ _ _ rfl).1
  · have := (status_errorReply (World.init fs).w e 500 rfl).2
    simpa [World.init, ResponseWriter.fresh] using this
  · rw [errorReply_eq]
    rfl

theorem saveHandler_found_iff (r : Request) (title : String) (fs : FileSystem) (t : String)
    (ht : validTitle t = true) (hp : r.URL.Path = "/save/" ++ t) :
    (saveHandler r title (World.init fs)).w.status = some 302 ↔
      (Page.save ⟨t, bytesOf (r.FormValue "body")⟩ (World.init fs)).1 = none := by
  constructor
  · intro hs
    cases h : (Page.save ⟨t, bytesOf (r.FormValue "body")⟩ (World.init fs)).1 with
    | none => rfl
    | some e =>
      rw [(saveHandler_failure r title fs t e ht hp h).1] at hs
      exact absurd hs (by decide)
  · intro h
    exact (saveHandler_success r title fs t ht hp h).1

/-- Claim C7. For a valid title `t`, `saveHandler` on `/save/t` first writes to
`t.txt` the bytes of the form field `body`: the first value stored under the
key `body` in the form, and no bytes when the key is missing or has no value.
If the write succeeds the response is 302 with `Location: /view/t` and the store
holds those bytes; if it fails with message `e`, `http.Error` is called with `e`
and 500: the status is 500, the body is the line `e`, and there is no redirect.
The status is 302 exactly when the write succeeded. -/
theorem C7_save_handler (r : Request) (title : String) (fs : FileSystem) (t : String)
    (ht : validTitle t = true) (hp : r.URL.Path = "/save/" ++ t) :
    (∀ B vs, r.Form.lookup "body" = some (B :: vs) →
      r.FormValue "body" = B ∧
      (saveHandler r title (World.init fs)).trace.head? =
        some (Call.WriteFile (t ++ ".txt") (bytesOf B) 0o600)) ∧
    ((r.Form.lookup "body" = none ∨ r.Form.lookup "body" = some []) →
      r.FormValue "body" = "" ∧
      (saveHandler r title (World.init fs)).trace.head? =
        some (Call.WriteFile (t ++ ".txt") [] 0o600)) ∧
    ((Page.save ⟨t, bytesOf (r.FormValue "body")⟩ (World.init fs)).1 = none →
      (saveHandler r title (World.init fs)).w.status = some 302 ∧
      (saveHandler r title (World.init fs)).w.location = some ("/view/" ++ t) ∧
      (saveHandler r title (World.init fs)).fs.get (t ++ ".txt") =
        some (.file (bytesOf (r.FormValue "body"))) ∧
      (saveHandler r title (World.init fs)).trace =
        [Call.WriteFile (t ++ ".txt") (bytesOf (r.FormValue "body")) 0o600,
          Call.Redirect ("/view/" ++ t) 302]) ∧
    (∀ e, (Page.save ⟨t, bytesOf (r.FormValue "body")⟩ (World.init fs)).1 = some e →
      (saveHandler r title (World.init fs)).w.status = some 500 ∧
      (saveHandler r title (World.init fs)).w.body = bytesOf (e ++ "\n") ∧
      (saveHandler r title (World.init fs)).w.location = none ∧
      (saveHandler r title (World.init fs)).trace =
        [Call.WriteFile (t ++ ".txt") (bytesOf (r.FormValue "body")) 0o600,
          Call.Error e 500]) ∧
    ((saveHandler r title (World.init fs)).w.status = some 302 ↔
      (Page.save ⟨t, bytesOf (r.FormValue "body")⟩ (World.init fs)).1 = none) := by
  have hhead : (saveHandler r title (World.init fs)).trace.head? =
      some (Call.WriteFile (t ++ ".txt") (bytesOf (r.FormValue "body")) 0o600) := by
    cases h : (Page.save ⟨t, bytesOf (r.FormValue "body")⟩ (World.init fs)).1 with
    | none => rw [(saveHandler_success r title fs t ht hp h).2.2.2]; rfl
    | some e => rw [(saveHandler_failure r title fs t e ht hp h).2.2.2]; rfl
  refine ⟨?_, ?_, saveHandler_success r title fs t ht hp,
    fun e => saveHandler_failure r title fs t e ht hp, saveHandler_found_iff r title fs t ht hp⟩
  · intro B vs hB
    have hv := formValue_present r "body" B vs hB
    rw [hv] at hhead
    exact ⟨hv, hhead⟩
  · intro hmiss
    have hv := formValue_missing r "body" hmiss
    rw [hv] at hhead
    exact ⟨hv, hhead⟩

/-- Instance of C7: `POST /save/Test` with body `Hello World`.  On the empty
store the bytes of `Hello World` are written to `Test.txt` and the answer is a
redirect to `/view/Test`; on a read-only store, on a store with three bytes
left, and for a title whose file name is too long, the answer is 500 with the
failure line as body; without a `body` field no bytes are written. -/
theorem C7_save_handler_witness :
    ((saveHandler ⟨"POST", ⟨"/save/Test"⟩, [("body", ["Hello World"])]⟩ ""
        (World.init emptyStore)).trace =
        [Call.WriteFile "Test.txt" (bytesOf "Hello World") 0o600,
          Call.Redirect "/view/Test" 302] ∧
      (saveHandler ⟨"POST", ⟨"/save/Test"⟩, [("body", ["Hello World"])]⟩ ""
        (World.init emptyStore)).fs.get "Test.txt" = some (.file (bytesOf "Hello World")) ∧
      (saveHandler ⟨"POST", ⟨"/save/Test"⟩, [("body", ["Hello World"])]⟩ ""
        (World.init emptyStore)).w.status = some 302 ∧
      (saveHandler ⟨"POST", ⟨"/save/Test"⟩, [("body", ["Hello World"])]⟩ ""
        (World.init emptyStore)).w.location = some "/view/Test") ∧
    ((saveHandler ⟨"POST", ⟨"/save/Test"⟩, [("body", ["Hello World"])]⟩ ""
        (World.init readOnlyStore)).w.status = some 500 ∧
      (saveHandler ⟨"POST", ⟨"/save/Test"⟩, [("body", ["Hello World"])]⟩ ""
        (World.init readOnlyStore)).w.body =
          bytesOf "open Test.txt: read-only file system\n") ∧
    ((saveHandler ⟨"POST", ⟨"/save/Test"⟩, [("body", ["Hello World"])]⟩ ""
        (World.init fullStore)).w.status = some 500 ∧
      (saveHandler ⟨"POST", ⟨"/save/Test"⟩, [("body", ["Hello World"])]⟩ ""
        (World.init fullStore)).w.body =
          bytesOf "write Test.txt: no space left on device\n") ∧
    ((saveHandler ⟨"POST", ⟨"/save/" ++ longTitle⟩, [("body", ["Hello World"])]⟩ ""
        (World.init emptyStore)).w.status = some 500 ∧
      (saveHandler ⟨"POST", ⟨"/save/" ++ longTitle⟩, [("body", ["Hello World"])]⟩ ""
        (World.init emptyStore)).w.body =
          bytesOf ("open " ++ (longTitle ++ ".txt") ++ ": file name too long" ++ "\n")) ∧
    (saveHandler ⟨"POST", ⟨"/save/Test"⟩, []⟩ "" (World.init emptyStore)).trace.head? =
      some (Call.WriteFile "Test.txt" [] 0o600) :=
  ⟨⟨((C7_save_handler ⟨"POST", ⟨"/save/Test"⟩, [("body", ["Hello World"])]⟩ "" emptyStore
        "Test" (by decide) (by decide)).2.2.1 (by decide)).2.2.2,
      ((C7_save_handler ⟨"POST", ⟨"/save/Test"⟩, [("body", ["Hello World"])]⟩ "" emptyStore
        "Test" (by decide) (by decide)).2.2.1 (by decide)).2.2.1,
      ((C7_save_handler ⟨"POST", ⟨"/save/Test"⟩, [("body", ["Hello World"])]⟩ "" emptyStore
        "Test" (by decide) (by decide)).2.2.1 (by decide)).1,
      ((C7_save_handler ⟨"POST", ⟨"/save/Test"⟩, [("body", ["Hello World"])]⟩ "" emptyStore
        "Test" (by decide) (by decide)).2.2.1 (by decide)).2.1⟩,
    ⟨((C7_save_handler ⟨"POST", ⟨"/save/Test"⟩, [("body", ["Hello World"])]⟩ "" readOnlyStore
        "Test" (by decide) (by decide)).2.2.2.1
        "open Test.txt: read-only file system" (by decide)).1,
      ((C7_save_handler ⟨"POST", ⟨"/save/Test"⟩, [("body", ["Hello World"])]⟩ "" readOnlyStore
        "Test" (by decide) (by decide)).2.2.2.1
        "open Test.txt: read-only file system" (by decide)).2.1⟩,
    ⟨((C7_save_handler ⟨"POST", ⟨"/save/Test"⟩, [("body", ["Hello World"])]⟩ "" fullStore
        "Test" (by decide) (by decide)).2.2.2.1
        "write Test.txt: no space left on device" (by decide)).1,
      ((C7_save_handler ⟨"POST", ⟨"/save/Test"⟩, [("body", ["Hello World"])]⟩ "" fullStore
        "Test" (by decide) (by decide)).2.2.2.1
        "write Test.txt: no space left on device" (by decide)).2.1⟩,
    ⟨((C7_save_handler ⟨"POST", ⟨"/save/" ++ longTitle⟩, [("body", ["Hello World"])]⟩ ""
        emptyStore longTitle (by decide) rfl).2.2.2.1
        ("open " ++ (longTitle ++ ".txt") ++ ": file name too long") (by decide)).1,
      ((C7_save_handler ⟨"POST", ⟨"/save/" ++ longTitle⟩, [("body", ["Hello World"])]⟩ ""
        emptyStore longTitle (by decide) rfl).2.2.2.1
        ("open " ++ (longTitle ++ ".txt") ++ ": file name too long") (by decide)).2.1⟩,
    ((C7_save_handler ⟨"POST", ⟨"/save/Test"⟩, []⟩ "" emptyStore
        "Test" (by decide) (by decide)).2.1 (Or.inl (by decide))).2⟩

/-- Claim C8. For a valid title `t` and a form whose field `body` is `B`, once
`saveHandler` on `/save/t` has succeeded (answered 302), the store entry `t.txt`
holds exactly the bytes of `B`, and `viewHandler` on `/view/t` over that store
is exactly the rendering of the `view` template with `Page{t, B}`: its calls are
the read and the template execution, the response body is what the template
wrote for that page (followed by the error line if the template failed), the
status is 200 as soon as the template made a `Write` call, and no redirect is
sent. -/
theorem C8_save_then_view (templates : Templates) (r1 r2 : Request) (title1 title2 : String)
    (fs : FileSystem) (t B : String) (vs : List String) (ht : validTitle t = true)
    (hp1 : r1.URL.Path = "/save/" ++ t) (hp2 : r2.URL.Path = "/view/" ++ t)
    (hform : r1.Form.lookup "body" = some (B :: vs))
    (hok : (saveHandler r1 title1 (World.init fs)).w.status = some 302) :
    (saveHandler r1 title1 (World.init fs)).fs.get (t ++ ".txt") =
        some (.file (bytesOf B)) ∧
      viewHandler templates r2 title2 (World.init (saveHandler r1 title1 (World.init fs)).fs) =
        renderTemplate templates "view" ⟨t, bytesOf B⟩
          ((World.init (saveHandler r1 title1 (World.init fs)).fs).log
            (.ReadFile (t ++ ".txt"))) ∧
      (viewHandler templates r2 title2
          (World.init (saveHandler r1 title1 (World.init fs)).fs)).trace =
        Call.ReadFile (t ++ ".txt") :: Call.ExecuteTemplate "view.html" ⟨t, bytesOf B⟩ ::
          (match (templates "view.html" ⟨t, bytesOf B⟩).err with
           | some e => [Call.Error e 500]
           | none => []) ∧
      (viewHandler templates r2 title2
          (World.init (saveHandler r1 title1 (World.init fs)).fs)).w.body =
        (templates "view.html" ⟨t, bytesOf B⟩).writes.flatten ++
          (match (templates "view.html" ⟨t, bytesOf B⟩).err with
           | some e => bytesOf (e ++ "\n")
           | none => []) ∧
      (viewHandler templates r2 title2
          (World.init (saveHandler r1 title1 (World.init fs)).fs)).w.status =
        (match (templates "view.html" ⟨t, bytesOf B⟩).writes,
            (templates "view.html" ⟨t, bytesOf B⟩).err with
         | [], some _ => some 500
         | [], none => none
         | _ :: _, _ => some 200) ∧
      (viewHandler templates r2 title2
          (World.init (saveHandler r1 title1 (World.init fs)).fs)).w.location = none := by
  have hB := formValue_present r1 "body" B vs hform
  have hsave := (saveHandler_found_iff r1 title1 fs t ht hp1).mp hok
  have hfs := (saveHandler_success r1 title1 fs t ht hp1 hsave).2.2.1
  rw [hB] at hfs
  have hV := viewHandler_ok templates r2 title2
    (World.init (saveHandler r1 title1 (World.init fs)).fs) "view" t (by decide) ht
    (hp2.trans (path_view t))
  have hL := loadPage_file t (World.init (saveHandler r1 title1 (World.init fs)).fs) _ hfs
  have hname : "view" ++ ".html" = "view.html" := by decide
  rw [hL] at hV
  simp only at hV
  have hr := renderTemplate_fresh templates "view" ⟨t, bytesOf B⟩
    ((World.init (saveHandler r1 title1 (World.init fs)).fs).log (.ReadFile (t ++ ".txt"))) rfl
  rw [hname] at hr
  refine ⟨hfs, hV, ?_, ?_, ?_, ?_⟩
  · rw [hV, renderTemplate_trace, hname]
    rfl
  · rw [hV]; exact hr.1
  · rw [hV]; exact hr.2
  · rw [hV]
    exact renderTemplate_location _ _ _ _ rfl

/-- Instance of C8: `POST /save/Test` with body `Hello World` on the empty
store, then `GET /view/Test`: the entry `Test.txt` holds `Hello World`, and the
page sent with status 200 is what the `view` template writes for the title
`Test` and the body `Hello World`. -/
theorem C8_save_then_view_witness :
    (saveHandler ⟨"POST", ⟨"/save/Test"⟩, [("body", ["Hello World"])]⟩ ""
        (World.init emptyStore)).fs.get "Test.txt" = some (.file (bytesOf "Hello World")) ∧
      (viewHandler demoTemplates ⟨"GET", ⟨"/view/Test"⟩, []⟩ ""
        (World.init (saveHandler ⟨"POST", ⟨"/save/Test"⟩, [("body", ["Hello World"])]⟩ ""
          (World.init emptyStore)).fs)).trace =
        [Call.ReadFile "Test.txt",
          Call.ExecuteTemplate "view.html" ⟨"Test", bytesOf "Hello World"⟩] ∧
      (viewHandler demoTemplates ⟨"GET", ⟨"/view/Test"⟩, []⟩ ""
        (World.init (saveHandler ⟨"POST", ⟨"/save/Test"⟩, [("body", ["Hello World"])]⟩ ""
          (World.init emptyStore)).fs)).w.body =
        bytesOf "view.html" ++ bytesOf "Test" ++ bytesOf "Hello World" ∧
      (viewHandler demoTemplates ⟨"GET", ⟨"/view/Test"⟩, []⟩ ""
        (World.init (saveHandler ⟨"POST", ⟨"/save/Test"⟩, [("body", ["Hello World"])]⟩ ""
          (World.init emptyStore)).fs)).w.status = some 200 ∧
      (viewHandler demoTemplates ⟨"GET", ⟨"/view/Test"⟩, []⟩ ""
        (World.init (saveHandler ⟨"POST", ⟨"/save/Test"⟩, [("body", ["Hello World"])]⟩ ""
          (World.init emptyStore)).fs)).w.location = none :=
  ⟨(C8_save_then_view demoTemplates ⟨"POST", ⟨"/save/Test"⟩, [("body", ["Hello World"])]⟩
      ⟨"GET", ⟨"/view/Test"⟩, []⟩ "" "" emptyStore "Test" "Hello World" [] (by decide)
      (by decide) (by decide) (by decide) (by decide)).1,
    (C8_save_then_view demoTemplates ⟨"POST", ⟨"/save/Test"⟩, [("body", ["Hello World"])]⟩
      ⟨"GET", ⟨"/view/Test"⟩, []⟩ "" "" emptyStore "Test" "Hello World" [] (by decide)
      (by decide) (by decide) (by decide) (by decide)).2.2.1,
    (C8_save_then_view demoTemplates ⟨"POST", ⟨"/save/Test"⟩, [("body", ["Hello World"])]⟩
      ⟨"GET", ⟨"/view/Test"⟩, []⟩ "" "" emptyStore "Test" "Hello World" [] (by decide)
      (by decide) (by decide) (by decide) (by decide)).2.2.2.1,
    (C8_save_then_view demoTemplates ⟨"POST", ⟨"/save/Test"⟩, [("body", ["Hello World"])]⟩
      ⟨"GET", ⟨"/view/Test"⟩, []⟩ "" "" emptyStore "Test" "Hello World" [] (by decide)
      (by decide) (by decide) (by decide) (by decide)).2.2.2.2.1,
    (C8_save_then_view demoTemplates ⟨"POST", ⟨"/save/Test"⟩, [("body", ["Hello World"])]⟩
      ⟨"GET", ⟨"/view/Test"⟩, []⟩ "" "" emptyStore "Test" "Hello World" [] (by decide)
      (by decide) (by decide) (by decide) (by decide)).2.2.2.2.2⟩

/-- Claim C9 (a defect of the code). On a response not yet written, whenever
executing the template makes at least one `Write` call and then fails with
message `e`, `renderTemplate` does call `http.Error` with `e` and 500, but the
header went out with status 200 at the first `Write`: the response status is
200, not 500, and the body is everything the template wrote followed by the
line `e`, not the message instead of the page. -/
theorem C9_status_after_output (templates : Templates) (tmpl : String) (p : Page) (σ : World)
    (e : String) (d : Bytes) (ds : List Bytes) (hw : σ.w.sent = none)
    (herr : (templates (tmpl ++ ".html") p).err = some e)
    (hwrites : (templates (tmpl ++ ".html") p).writes = d :: ds) :
    (renderTemplate templates tmpl p σ).trace =
        σ.trace ++ [Call.ExecuteTemplate (tmpl ++ ".html") p, Call.Error e 500] ∧
      (renderTemplate templates tmpl p σ).w.status = some 200 ∧
      (renderTemplate templates tmpl p σ).w.status ≠ some 500 ∧
      (renderTemplate templates tmpl p σ).w.body =
        σ.w.body ++ (d :: ds).flatten ++ bytesOf (e ++ "\n") := by
  have hne : (d :: ds) ≠ [] := by simp
  have hst : (renderTemplate templates tmpl p σ).w.status = some 200 ∧
      (renderTemplate templates tmpl p σ).w.body =
        σ.w.body ++ (d :: ds).flatten ++ bytesOf (e ++ "\n") := by
    rw [renderTemplate_w, herr, hwrites]
    simp only
    rw [foldl_write _ _ hne]
    simp only [errorReply_eq, hw, ResponseWriter.status, Option.getD_none, Option.getD_some,
      Option.map_some']
    exact ⟨trivial, trivial⟩
  refine ⟨?_, hst.1, ?_, hst.2⟩
  · rw [renderTemplate_trace, herr]
  · rw [hst.1]
    decide

/-- The failing input of C9: the `view` template writes `<h1>` and the title
and then fails.  `http.Error` is called with 500, yet the response has status
200 and its body is the partial page followed by the message. -/
theorem C9_status_after_output_witness :
    (renderTemplate brokenTemplates "view" ⟨"Test", []⟩ (World.init emptyStore)).trace =
        (World.init emptyStore).trace ++
          [Call.ExecuteTemplate ("view" ++ ".html") ⟨"Test", []⟩,
            Call.Error "write tcp: broken pipe" 500] ∧
      (renderTemplate brokenTemplates "view" ⟨"Test", []⟩ (World.init emptyStore)).w.status =
        some 200 ∧
      (renderTemplate brokenTemplates "view" ⟨"Test", []⟩ (World.init emptyStore)).w.status ≠
        some 500 ∧
      (renderTemplate brokenTemplates "view" ⟨"Test", []⟩ (World.init emptyStore)).w.body =
        (World.init emptyStore).w.body ++ [bytesOf "<h1>", bytesOf "Test"].flatten ++
          bytesOf ("write tcp: broken pipe" ++ "\n") :=
  C9_status_after_output brokenTemplates "view" ⟨"Test", []⟩ (World.init emptyStore)
    "write tcp: broken pipe" (bytesOf "<h1>") [bytesOf "Test"] rfl (by decide) (by decide)

end GoWiki
